import Mathlib

/-!
Verification of the network-VPC synthesis layer of the
landing-zone-accelerator repository.

The embedding follows two source files:

* `packages/@aws-compliant-constructs/compliant-constructs/lib/secure-vpc.ts`
  — the construct wrappers (`SecureVpc`, `SecureRouteTable`, `SecureSubnet`,
  `SecureNatGateway`); the one piece of logic is
  `SecureRouteTable.addInternetGatewayRoute`, which throws when the owning
  VPC has no internet-gateway identifier.
* `packages/@aws-accelerator/accelerator/lib/stacks/network-vpc-stack.ts`
  — the orchestration pass: a transit-gateway resolution pass, an optional
  cross-account IAM role, and a per-VPC build that walks route tables,
  subnets, NAT gateways, transit-gateway attachments, route entries and
  gateway endpoints, accumulating name→resource maps and publishing SSM
  parameters.

CloudFormation references (`resource.ref`) are opaque tokens in the source;
here they are modelled as deterministic strings derived from the resource
names, which preserves everything the orchestration observes about them
(identity and distinctness per named resource).  Construct ids (the
`pascalCase(...)` arguments) are not modelled; they never influence the
data flow.  `console.log` calls are ignored.  Thrown `Error`s are modelled
with `Except String`.
-/

namespace LZA

/-! ## Configuration data model (the shapes read by network-vpc-stack.ts) -/

/-- One entry of `routeTableItem.routes`. -/
structure RouteTableEntryItem where
  name : String
  type : String
  destination : String
  target : String
deriving DecidableEq, Repr

/-- One entry of `vpcItem.routeTables`. -/
structure RouteTableItem where
  name : String
  routes : List RouteTableEntryItem
deriving DecidableEq, Repr

/-- One entry of `vpcItem.subnets`; `routeTable` is a name reference. -/
structure SubnetItem where
  name : String
  availabilityZone : String
  ipv4CidrBlock : String
  mapPublicIpOnLaunch : Bool
  routeTable : String
deriving DecidableEq, Repr

/-- One entry of `vpcItem.natGateways`; `subnet` is a name reference. -/
structure NatGatewayItem where
  name : String
  subnet : String
deriving DecidableEq, Repr

/-- The `transitGateway` field of an attachment item: a name plus the
account reference of the owning account. -/
structure TransitGatewayRef where
  name : String
  account : String
deriving DecidableEq, Repr

/-- One entry of `vpcItem.transitGatewayAttachments`; `subnets` are name
references into the same VPC. -/
structure TransitGatewayAttachmentItem where
  name : String
  transitGateway : TransitGatewayRef
  subnets : List String
deriving DecidableEq, Repr

/-- One entry of `networkConfig.vpcs`. -/
structure VpcItem where
  name : String
  account : String
  region : String
  cidrs : List String
  internetGateway : Bool
  enableDnsHostnames : Bool
  enableDnsSupport : Bool
  instanceTenancy : String
  routeTables : List RouteTableItem
  subnets : List SubnetItem
  natGateways : List NatGatewayItem
  transitGatewayAttachments : List TransitGatewayAttachmentItem
  gatewayEndpoints : List String
deriving DecidableEq, Repr

/-- `props.networkConfig`: the VPC list plus the default-VPC deletion flag
(`networkConfig.defaultVpc?.delete`). -/
structure NetworkConfig where
  deleteDefaultVpc : Bool
  vpcs : List VpcItem
deriving DecidableEq, Repr

/-- The execution context of one stack synthesis: the current account and
region (`cdk.Stack.of(this).account/region`), the stack name and id, the
composed account lookup
`props.accountIds[props.accountsConfig.getEmail(·)]`, and the two external
read-only lookups used by the transit-gateway resolution pass (the local
SSM parameter value and the cross-account resource-share item id for a
given transit-gateway name). -/
structure Env where
  account : String
  region : String
  stackName : String
  stackId : String
  accountIdOf : String → String
  localTransitGatewayId : String → String
  sharedTransitGatewayId : String → String

/-! ## Resources produced by synthesis -/

/-- The target of a `CfnRoute`, mirroring which of
`transitGatewayId` / `natGatewayId` / `gatewayId` is set. -/
inductive RouteTarget where
  | transitGateway (transitGatewayId : String)
  | natGateway (natGatewayId : String)
  | internetGateway (gatewayId : String)
deriving DecidableEq, Repr

/-- One declared resource of the synthesized stack. -/
inductive Resource where
  | deleteDefaultVpc
  | vpc (name : String) (cidr : String)
  | internetGateway (vpcName : String)
  | routeTable (vpcName : String) (name : String) (routeTableId : String)
  | subnet (vpcName : String) (name : String) (availabilityZone : String)
      (cidr : String) (subnetId : String) (routeTableId : String)
  | natGateway (vpcName : String) (name : String) (natGatewayId : String)
      (subnetId : String)
  | transitGatewayAttachment (name : String) (transitGatewayId : String)
      (subnetIds : List String) (vpcId : String)
  | route (routeTableId : String) (destination : String) (target : RouteTarget)
  | gatewayEndpoint (service : String) (vpcId : String)
      (routeTableIds : List String)
  | crossAccountRole (principalAccountIds : List String)
deriving DecidableEq, Repr

/-! ## Deterministic models of CloudFormation references -/

def vpcPhysicalId (name : String) : String := "vpc-" ++ name

def internetGatewayPhysicalId (name : String) : String := "igw-" ++ name

def routeTablePhysicalId (vpcName name : String) : String :=
  "rtb-" ++ vpcName ++ "-" ++ name

def subnetPhysicalId (vpcName name : String) : String :=
  "subnet-" ++ vpcName ++ "-" ++ name

def natGatewayPhysicalId (vpcName name : String) : String :=
  "nat-" ++ vpcName ++ "-" ++ name

def attachmentPhysicalId (name : String) : String := "tgw-attach-" ++ name

/-! ## Association-list model of the TS `Map` (insertion order, `set`
overwrites in place, `get` returns the latest value for a key) -/

def mapGet {α : Type} (m : List (String × α)) (k : String) : Option α :=
  match m with
  | [] => none
  | (k', v) :: rest => if k' = k then some v else mapGet rest k

def mapSet {α : Type} (m : List (String × α)) (k : String) (v : α) :
    List (String × α) :=
  match m with
  | [] => [(k, v)]
  | (k', v') :: rest =>
    if k' = k then (k, v) :: rest else (k', v') :: mapSet rest k v

def mapKeys {α : Type} (m : List (String × α)) : List String :=
  m.map Prod.fst

/-! ## Construct wrappers (secure-vpc.ts semantics) -/

/-- The value a `RouteTable` wrapper carries at orchestration time: its
identifier and the internet-gateway identifier of its owning VPC
(`this.vpc.internetGatewayId`, `undefined` when the VPC was created
without a gateway). -/
structure RouteTableRes where
  name : String
  routeTableId : String
  vpcInternetGatewayId : Option String
deriving DecidableEq, Repr

structure SubnetRes where
  subnetId : String
deriving DecidableEq, Repr

structure NatGatewayRes where
  natGatewayId : String
deriving DecidableEq, Repr

structure AttachmentRes where
  transitGatewayAttachmentId : String
deriving DecidableEq, Repr

/-- `SecureRouteTable.addInternetGatewayRoute` (secure-vpc.ts): throws
`Attempting to add Internet Gateway route without an IGW defined.` when
`this.vpc.internetGatewayId` is JavaScript-falsy (`undefined` or the empty
string), otherwise creates one `CfnRoute` whose `gatewayId` is that
identifier.  The first argument mirrors the unused-here construct id. -/
def addInternetGatewayRoute (rt : RouteTableRes) (constructId : String)
    (destination : String) : Except String Resource :=
  if rt.vpcInternetGatewayId.getD "" = "" then
    Except.error "Attempting to add Internet Gateway route without an IGW defined."
  else
    Except.ok (Resource.route rt.routeTableId destination
      (RouteTarget.internetGateway (rt.vpcInternetGatewayId.getD "")))

/-! ## Transit-gateway resolution pass (network-vpc-stack.ts lines 50–123) -/

/-- The mutable state of the resolution pass: `transitGatewayIds` (name →
identifier Map) and `transitGatewayAccountIds` (foreign owning accounts,
pushed with an `indexOf` dedup check). -/
structure TgwResolutionState where
  transitGatewayIds : List (String × String)
  transitGatewayAccountIds : List String
deriving DecidableEq, Repr

/-- The account/region filter applied to every VPC item (lines 60–62 and
155–156). -/
def vpcMatches (env : Env) (v : VpcItem) : Bool :=
  env.accountIdOf v.account == env.account && v.region == env.region

/-- Processing of a single attachment in the resolution pass: skip on
cache hit; otherwise resolve locally (owning account is the current
account) from the SSM parameter, or remotely from the resource share,
recording the foreign owning account. -/
def resolveAttachmentStep (env : Env) (st : TgwResolutionState)
    (att : TransitGatewayAttachmentItem) : TgwResolutionState :=
  if (mapGet st.transitGatewayIds att.transitGateway.name).isSome then st
  else
    let owningAccountId := env.accountIdOf att.transitGateway.account
    if owningAccountId == env.account then
      { st with
        transitGatewayIds := mapSet st.transitGatewayIds
          att.transitGateway.name
          (env.localTransitGatewayId att.transitGateway.name) }
    else
      { transitGatewayIds := mapSet st.transitGatewayIds
          att.transitGateway.name
          (env.sharedTransitGatewayId att.transitGateway.name),
        transitGatewayAccountIds :=
          if st.transitGatewayAccountIds.contains owningAccountId then
            st.transitGatewayAccountIds
          else st.transitGatewayAccountIds ++ [owningAccountId] }

/-- One VPC item of the resolution pass: only attachments of VPCs matching
the current account and region are examined. -/
def resolveVpcStep (env : Env) (st : TgwResolutionState) (v : VpcItem) :
    TgwResolutionState :=
  if vpcMatches env v then
    v.transitGatewayAttachments.foldl (resolveAttachmentStep env) st
  else st

/-- The whole transit-gateway resolution pass over the configured VPCs. -/
def resolveTransitGateways (env : Env) (vpcs : List VpcItem) :
    TgwResolutionState :=
  vpcs.foldl (resolveVpcStep env)
    { transitGatewayIds := [], transitGatewayAccountIds := [] }

/-! ## Per-VPC build (network-vpc-stack.ts lines 154–405) -/

/-- The mutable state threaded through one VPC build: the four name→
resource maps, the two gateway-endpoint accumulation lists, and the
resources/SSM parameters produced so far. -/
structure VpcBuildState where
  routeTableMap : List (String × RouteTableRes)
  subnetMap : List (String × SubnetRes)
  natGatewayMap : List (String × NatGatewayRes)
  transitGatewayAttachments : List (String × AttachmentRes)
  s3EndpointRouteTables : List String
  dynamodbEndpointRouteTables : List String
  resources : List Resource
  ssmParameters : List (String × String)
deriving DecidableEq, Repr

/-- Parameter published for the VPC itself (lines 170–173). -/
def vpcIdParam (vpcName : String) : String × String :=
  ("/accelerator/network/vpc/" ++ vpcName ++ "/id", vpcPhysicalId vpcName)

/-- Parameter published per route table (lines 193–200). -/
def routeTableParam (vpcName : String) (rt : RouteTableItem) :
    String × String :=
  ("/accelerator/network/vpc/" ++ vpcName ++ "/routeTable/" ++ rt.name ++ "/id",
   routeTablePhysicalId vpcName rt.name)

/-- Parameter published per subnet (lines 228–235). -/
def subnetParam (vpcName : String) (s : SubnetItem) : String × String :=
  ("/accelerator/network/vpc/" ++ vpcName ++ "/subnet/" ++ s.name ++ "/id",
   subnetPhysicalId vpcName s.name)

/-- Parameter published per NAT gateway (lines 259–266). -/
def natGatewayParam (vpcName : String) (n : NatGatewayItem) :
    String × String :=
  ("/accelerator/network/vpc/" ++ vpcName ++ "/natGateway/" ++ n.name ++ "/id",
   natGatewayPhysicalId vpcName n.name)

/-- Parameter published per transit-gateway attachment (lines 301–310). -/
def attachmentParam (vpcName : String) (a : TransitGatewayAttachmentItem) :
    String × String :=
  ("/accelerator/network/vpc/" ++ vpcName ++ "/transitGatewayAttachment/" ++
     a.name ++ "/id",
   attachmentPhysicalId a.name)

/-- Route-table creation step (lines 183–201): always succeeds, records
the wrapper in the map and publishes the identifier. -/
def routeTableStep (vpcName : String) (igwId : Option String)
    (st : VpcBuildState) (rt : RouteTableItem) : VpcBuildState :=
  let res : RouteTableRes :=
    { name := rt.name,
      routeTableId := routeTablePhysicalId vpcName rt.name,
      vpcInternetGatewayId := igwId }
  { st with
    routeTableMap := mapSet st.routeTableMap rt.name res,
    resources := st.resources ++
      [Resource.routeTable vpcName rt.name res.routeTableId],
    ssmParameters := st.ssmParameters ++ [routeTableParam vpcName rt] }

/-- Subnet creation step (lines 211–236): resolves the route table by name
and throws `Route table ... not defined` on a miss. -/
def subnetStep (env : Env) (vpcName : String) (st : VpcBuildState)
    (s : SubnetItem) : Except String VpcBuildState :=
  match mapGet st.routeTableMap s.routeTable with
  | none => Except.error ("Route table " ++ s.routeTable ++ " not defined")
  | some routeTable =>
    let subnetId := subnetPhysicalId vpcName s.name
    Except.ok { st with
      subnetMap := mapSet st.subnetMap s.name { subnetId },
      resources := st.resources ++
        [Resource.subnet vpcName s.name (env.region ++ s.availabilityZone)
          s.ipv4CidrBlock subnetId routeTable.routeTableId],
      ssmParameters := st.ssmParameters ++ [subnetParam vpcName s] }

/-- NAT-gateway creation step (lines 242–267): resolves the subnet by name
and throws `Subnet ... not defined` on a miss. -/
def natGatewayStep (vpcName : String) (st : VpcBuildState)
    (n : NatGatewayItem) : Except String VpcBuildState :=
  match mapGet st.subnetMap n.subnet with
  | none => Except.error ("Subnet " ++ n.subnet ++ " not defined")
  | some subnet =>
    let natGatewayId := natGatewayPhysicalId vpcName n.name
    Except.ok { st with
      natGatewayMap := mapSet st.natGatewayMap n.name { natGatewayId },
      resources := st.resources ++
        [Resource.natGateway vpcName n.name natGatewayId subnet.subnetId],
      ssmParameters := st.ssmParameters ++ [natGatewayParam vpcName n] }

/-- Resolution of one referenced subnet of an attachment (lines 282–288). -/
def attachmentSubnetStep (st : VpcBuildState) (acc : List String)
    (subnetName : String) : Except String (List String) :=
  match mapGet st.subnetMap subnetName with
  | none => Except.error ("Subnet " ++ subnetName ++ " not defined")
  | some subnet => Except.ok (acc ++ [subnet.subnetId])

/-- Transit-gateway-attachment creation step (lines 273–311): resolves the
transit-gateway identifier from the resolution pass's map (`Transit
Gateway ... not found` on a miss) and every referenced subnet, then
records the attachment in the map **keyed by the transit-gateway name**
and publishes the identifier. -/
def attachmentStep (tgwIds : List (String × String)) (vpcName vpcId : String)
    (st : VpcBuildState) (att : TransitGatewayAttachmentItem) :
    Except String VpcBuildState :=
  match mapGet tgwIds att.transitGateway.name with
  | none =>
    Except.error ("Transit Gateway " ++ att.transitGateway.name ++ " not found")
  | some transitGatewayId =>
    (att.subnets.foldlM (attachmentSubnetStep st) []).map fun subnetIds =>
      { st with
        transitGatewayAttachments := mapSet st.transitGatewayAttachments
          att.transitGateway.name
          { transitGatewayAttachmentId := attachmentPhysicalId att.name },
        resources := st.resources ++
          [Resource.transitGatewayAttachment att.name transitGatewayId
            subnetIds vpcId],
        ssmParameters := st.ssmParameters ++ [attachmentParam vpcName att] }

/-- Route-entry dispatch (lines 326–373): `transitGateway` and
`natGateway` entries resolve their targets from the maps and add a route;
`internetGateway` entries delegate to the wrapper invariant; entries whose
target is `s3`/`dynamodb` accumulate the owning route table's identifier
into the per-service list with an `indexOf` dedup check; anything else
falls through the `else if` chain and does nothing. -/
def routeEntryStep (tgwIds : List (String × String))
    (routeTable : RouteTableRes) (st : VpcBuildState)
    (e : RouteTableEntryItem) : Except String VpcBuildState :=
  if e.type = "transitGateway" then
    match mapGet tgwIds e.target with
    | none => Except.error ("Transit Gateway " ++ e.target ++ " not found")
    | some transitGatewayId =>
      match mapGet st.transitGatewayAttachments e.target with
      | none =>
        Except.error ("Transit Gateway Attachment " ++ e.target ++ " not found")
      | some _ =>
        Except.ok { st with resources := st.resources ++
          [Resource.route routeTable.routeTableId e.destination
            (RouteTarget.transitGateway transitGatewayId)] }
  else if e.type = "natGateway" then
    match mapGet st.natGatewayMap e.target with
    | none => Except.error ("NAT Gateway " ++ e.target ++ " not found")
    | some natGateway =>
      Except.ok { st with resources := st.resources ++
        [Resource.route routeTable.routeTableId e.destination
          (RouteTarget.natGateway natGateway.natGatewayId)] }
  else if e.type = "internetGateway" then
    match addInternetGatewayRoute routeTable e.name e.destination with
    | Except.error msg => Except.error msg
    | Except.ok r =>
      Except.ok { st with resources := st.resources ++ [r] }
  else if e.target = "s3" then
    Except.ok { st with s3EndpointRouteTables :=
      if st.s3EndpointRouteTables.contains routeTable.routeTableId then
        st.s3EndpointRouteTables
      else st.s3EndpointRouteTables ++ [routeTable.routeTableId] }
  else if e.target = "dynamodb" then
    Except.ok { st with dynamodbEndpointRouteTables :=
      if st.dynamodbEndpointRouteTables.contains routeTable.routeTableId then
        st.dynamodbEndpointRouteTables
      else st.dynamodbEndpointRouteTables ++ [routeTable.routeTableId] }
  else
    Except.ok st

/-- The route-entry pass over one route table (lines 319–374): the
table is first re-fetched from the map (`Route Table ... not found` on a
miss), then every entry is dispatched. -/
def routeTableEntriesStep (tgwIds : List (String × String))
    (st : VpcBuildState) (rt : RouteTableItem) : Except String VpcBuildState :=
  match mapGet st.routeTableMap rt.name with
  | none => Except.error ("Route Table " ++ rt.name ++ " not found")
  | some routeTable => rt.routes.foldlM (routeEntryStep tgwIds routeTable) st

/-- Gateway-endpoint creation (lines 379–395): one endpoint per declared
service, bound to the accumulated route-table list of that service. -/
def gatewayEndpointStep (vpcId : String) (st : VpcBuildState)
    (g : String) : VpcBuildState :=
  if g = "s3" then
    { st with resources := st.resources ++
      [Resource.gatewayEndpoint g vpcId st.s3EndpointRouteTables] }
  else if g = "dynamodb" then
    { st with resources := st.resources ++
      [Resource.gatewayEndpoint g vpcId st.dynamodbEndpointRouteTables] }
  else st

/-- The internet-gateway identifier the VPC wrapper exposes: present
exactly when the `internetGateway` flag is set (secure-vpc.ts lines
275–284). -/
def buildVpcIgwId (v : VpcItem) : Option String :=
  if v.internetGateway then some (internetGatewayPhysicalId v.name) else none

/-- The state right after the VPC itself is created (lines 162–173): the
VPC resource (with its first CIDR, `vpcItem.cidrs[0]`), its internet
gateway when configured, its published identifier, and empty maps. -/
def initialBuildState (v : VpcItem) : VpcBuildState :=
  { routeTableMap := [], subnetMap := [], natGatewayMap := [],
    transitGatewayAttachments := [], s3EndpointRouteTables := [],
    dynamodbEndpointRouteTables := [],
    resources := [Resource.vpc v.name (v.cidrs.headD "")] ++
      (if v.internetGateway then [Resource.internetGateway v.name] else []),
    ssmParameters := [vpcIdParam v.name] }

/-- The whole build of one matching VPC item (lines 157–404): VPC (plus
internet gateway when configured) → route tables → subnets → NAT gateways
→ transit-gateway attachments → route entries → gateway endpoints. -/
def buildVpc (env : Env) (tgwIds : List (String × String)) (v : VpcItem) :
    Except String VpcBuildState :=
  (v.subnets.foldlM (subnetStep env v.name)
      (v.routeTables.foldl (routeTableStep v.name (buildVpcIgwId v))
        (initialBuildState v))) >>= fun st2 =>
  (v.natGateways.foldlM (natGatewayStep v.name) st2) >>= fun st3 =>
  (v.transitGatewayAttachments.foldlM
      (attachmentStep tgwIds v.name (vpcPhysicalId v.name)) st3)
    >>= fun st4 =>
  (v.routeTables.foldlM (routeTableEntriesStep tgwIds) st4) >>= fun st5 =>
  Except.ok
    (v.gatewayEndpoints.foldl (gatewayEndpointStep (vpcPhysicalId v.name)) st5)

/-! ## Whole-stack synthesis -/

/-- Everything one synthesis produces: resource declarations and published
SSM parameters. -/
structure Output where
  resources : List Resource
  ssmParameters : List (String × String)
deriving DecidableEq, Repr

/-- Processing of one VPC item in the main loop: non-matching items are
skipped, matching items are built and their resources/parameters appended. -/
def vpcOutputStep (env : Env) (tgwIds : List (String × String))
    (out : Output) (v : VpcItem) : Except String Output :=
  if vpcMatches env v then
    (buildVpc env tgwIds v).map fun bst =>
      { resources := out.resources ++ bst.resources,
        ssmParameters := out.ssmParameters ++ bst.ssmParameters }
  else Except.ok out

/-- The output before any VPC is built (lines 37–149): the stack-id
parameter, the optional default-VPC deletion, and the cross-account
`DescribeTransitGatewayAttachments` role when the resolution pass
collected at least one foreign owning account. -/
def baseOutput (env : Env) (cfg : NetworkConfig) : Output :=
  { resources :=
      (if cfg.deleteDefaultVpc then [Resource.deleteDefaultVpc] else []) ++
      (if (resolveTransitGateways env cfg.vpcs).transitGatewayAccountIds.length
          > 0 then
        [Resource.crossAccountRole
          (resolveTransitGateways env cfg.vpcs).transitGatewayAccountIds]
      else []),
    ssmParameters :=
      [("/accelerator/" ++ env.stackName ++ "/stack-id", env.stackId)] }

/-- The whole `NetworkVpcStack` constructor body: stack-id parameter,
optional default-VPC deletion, transit-gateway resolution pass, optional
cross-account role, then the per-VPC builds. -/
def synthesize (env : Env) (cfg : NetworkConfig) : Except String Output :=
  cfg.vpcs.foldlM
    (vpcOutputStep env (resolveTransitGateways env cfg.vpcs).transitGatewayIds)
    (baseOutput env cfg)

/-! ## Specification-side definitions -/

/-- Follows the spec's published-parameter naming convention
(`/accelerator/network/vpc/{vpcName}/{resourceKind}/{resourceName}/id`,
with the VPC's own identifier at `/accelerator/network/vpc/{vpcName}/id`):
the parameters one VPC build is expected to publish, one per created
resource, in creation order. -/
def publishedParametersSpec (v : VpcItem) : List (String × String) :=
  vpcIdParam v.name ::
    (v.routeTables.map (routeTableParam v.name) ++
     v.subnets.map (subnetParam v.name) ++
     v.natGateways.map (natGatewayParam v.name) ++
     v.transitGatewayAttachments.map (attachmentParam v.name))

/-- The last attachment item of a list whose transit-gateway name is the
given one (the attachment a later `Map.get` on that key observes). -/
def lastAttachmentItemFor :
    List TransitGatewayAttachmentItem → String →
    Option TransitGatewayAttachmentItem
  | [], _ => none
  | a :: rest, n =>
    match lastAttachmentItemFor rest n with
    | some b => some b
    | none => if a.transitGateway.name = n then some a else none

/-- Whether the first character list starts with the second. -/
def charsHaveStart : List Char → List Char → Bool
  | _, [] => true
  | [], _ :: _ => false
  | c :: cs, d :: ds => c == d && charsHaveStart cs ds

/-- Whether the second character list occurs inside the first. -/
def charsContain : List Char → List Char → Bool
  | [], needle => needle.isEmpty
  | h :: t, needle => charsHaveStart (h :: t) needle || charsContain t needle

/-- Whether an error message mentions a name (substring check). -/
def reportsName (msg name : String) : Bool :=
  charsContain msg.data name.data

/-- Recognizer for the cross-account `DescribeTransitGatewayAttachments`
role among resources. -/
def isCrossAccountRole : Resource → Bool
  | Resource.crossAccountRole _ => true
  | _ => false

/-- Number of cross-account roles among the produced resources. -/
def countCrossAccountRoles (rs : List Resource) : Nat :=
  (rs.filter isCrossAccountRole).length

/-- No resource of the list is the cross-account role. -/
def roleFree (rs : List Resource) : Prop :=
  ∀ r ∈ rs, isCrossAccountRole r = false

/-- The owning-account function agrees with every attachment's
`transitGateway.account` field on the examined (matching) VPCs: each
transit gateway has one owning account, as the configuration intends. -/
def ownerConsistent (env : Env) (ownerOf : String → String)
    (vpcs : List VpcItem) : Prop :=
  ∀ v ∈ vpcs, vpcMatches env v = true →
    ∀ att ∈ v.transitGatewayAttachments,
      env.accountIdOf att.transitGateway.account = ownerOf att.transitGateway.name

/-- Invariant of the resolution pass: every cached transit gateway with a
foreign owner already has that owner recorded in the account list. -/
def acctsInvariant (env : Env) (ownerOf : String → String)
    (st : TgwResolutionState) : Prop :=
  ∀ n, (mapGet st.transitGatewayIds n).isSome = true →
    ownerOf n ≠ env.account →
    ownerOf n ∈ st.transitGatewayAccountIds

/-- What the route-entry pass preserves between build states: the four
name→resource maps and the published parameters are untouched, the two
endpoint lists only grow and stay duplicate-free, and no cross-account
role is added. -/
def entriesPreserves (st st' : VpcBuildState) : Prop :=
  st'.routeTableMap = st.routeTableMap ∧
  st'.subnetMap = st.subnetMap ∧
  st'.natGatewayMap = st.natGatewayMap ∧
  st'.transitGatewayAttachments = st.transitGatewayAttachments ∧
  st'.ssmParameters = st.ssmParameters ∧
  (∀ x ∈ st.s3EndpointRouteTables, x ∈ st'.s3EndpointRouteTables) ∧
  (∀ x ∈ st.dynamodbEndpointRouteTables, x ∈ st'.dynamodbEndpointRouteTables) ∧
  (st.s3EndpointRouteTables.Nodup → st'.s3EndpointRouteTables.Nodup) ∧
  (st.dynamodbEndpointRouteTables.Nodup → st'.dynamodbEndpointRouteTables.Nodup) ∧
  (roleFree st.resources → roleFree st'.resources)

/-! ## Concrete sample inputs (used to instantiate the theorems) -/

/-- The state a VPC build starts its maps and lists from. -/
def emptyBuildState : VpcBuildState :=
  { routeTableMap := [], subnetMap := [], natGatewayMap := [],
    transitGatewayAttachments := [], s3EndpointRouteTables := [],
    dynamodbEndpointRouteTables := [], resources := [], ssmParameters := [] }

/-- A sample execution context: account `111111111111` in `us-east-1`;
the account reference `shared` resolves to the foreign account
`222222222222`, everything else to the local account. -/
def envSample : Env :=
  { account := "111111111111", region := "us-east-1",
    stackName := "network-vpc", stackId := "stack-123",
    accountIdOf := fun s => if s = "shared" then "222222222222" else "111111111111",
    localTransitGatewayId := fun n => "tgw-local-" ++ n,
    sharedTransitGatewayId := fun n => "tgw-shared-" ++ n }

/-- Two attachments of one VPC referencing the same transit gateway `T`. -/
def sampleAttachmentItems : List TransitGatewayAttachmentItem :=
  [{ name := "Att1", transitGateway := { name := "T", account := "shared" },
     subnets := [] },
   { name := "Att2", transitGateway := { name := "T", account := "shared" },
     subnets := [] }]

/-- A resolved transit-gateway map holding `T`. -/
def sampleTgwIds : List (String × String) := [("T", "tgw-111")]

/-- The state after folding the two same-gateway attachments. -/
def sampleAttachmentsResult : VpcBuildState :=
  (sampleAttachmentItems.foldlM
    (attachmentStep sampleTgwIds "A" "vpc-A") emptyBuildState).toOption.getD
    emptyBuildState

/-- A full VPC item exercising every resource kind. -/
def sampleVpcItem : VpcItem :=
  { name := "A", account := "mgmt", region := "us-east-1",
    cidrs := ["10.0.0.0/16"], internetGateway := true,
    enableDnsHostnames := false, enableDnsSupport := true,
    instanceTenancy := "default",
    routeTables := [{ name := "Public", routes := [] }],
    subnets := [{ name := "Web", availabilityZone := "a",
                  ipv4CidrBlock := "10.0.1.0/24", mapPublicIpOnLaunch := true,
                  routeTable := "Public" }],
    natGateways := [{ name := "Ngw", subnet := "Web" }],
    transitGatewayAttachments :=
      [{ name := "Att", transitGateway := { name := "T", account := "shared" },
         subnets := ["Web"] }],
    gatewayEndpoints := [] }

/-- The build state produced by the sample VPC item. -/
def sampleVpcBuildResult : VpcBuildState :=
  (buildVpc envSample sampleTgwIds sampleVpcItem).toOption.getD emptyBuildState

/-- A route-table list with two distinct entries both targeting `s3` from
the same route table. -/
def sampleEndpointTables : List RouteTableItem :=
  [{ name := "Public", routes :=
      [{ name := "s3a", type := "gatewayEndpoint", destination := "",
         target := "s3" },
       { name := "s3b", type := "gatewayEndpoint", destination := "",
         target := "s3" }] }]

/-- A build state whose route-table map already holds `Public`. -/
def sampleEntriesStart : VpcBuildState :=
  { emptyBuildState with routeTableMap :=
      [("Public", { name := "Public", routeTableId := "rtb-A-Public",
                    vpcInternetGatewayId := none })] }

/-- The state after running the route-entry pass on the sample tables. -/
def sampleEntriesResult : VpcBuildState :=
  (sampleEndpointTables.foldlM (routeTableEntriesStep sampleTgwIds)
    sampleEntriesStart).toOption.getD emptyBuildState

/-- A configuration with one matching VPC whose only transit-gateway
attachment references a gateway owned by the foreign account. -/
def sampleForeignConfig : NetworkConfig :=
  { deleteDefaultVpc := false,
    vpcs := [{ sampleVpcItem with
      routeTables := [], subnets := [], natGateways := [],
      transitGatewayAttachments :=
        [{ name := "Att", transitGateway := { name := "T", account := "shared" },
           subnets := [] }] }] }

/-- The owning-account assignment of `sampleForeignConfig`: every
transit gateway is owned by the foreign account. -/
def sampleOwnerOf : String → String := fun _ => "222222222222"

/-- A configuration whose VPC `Zebra` has a route entry naming the
undeclared NAT gateway `Ngw` inside route table `Tbl`. -/
def sampleBrokenConfig : NetworkConfig :=
  { deleteDefaultVpc := false,
    vpcs := [{ sampleVpcItem with
      name := "Zebra", internetGateway := false,
      routeTables := [{ name := "Tbl", routes :=
        [{ name := "R1", type := "natGateway", destination := "0.0.0.0/0",
           target := "Ngw" }] }],
      subnets := [], natGateways := [], transitGatewayAttachments := [] }] }

end LZA

namespace LZA

/-! ## Basic lemmas: `Except` plumbing -/

theorem exceptBind_ok_iff {α β : Type} {x : Except String α}
    {f : α → Except String β} {b : β} :
    x >>= f = Except.ok b ↔ ∃ a, x = Except.ok a ∧ f a = Except.ok b := by
  cases x <;> simp [Bind.bind, Except.bind]

theorem exceptMap_ok_iff {α β : Type} {x : Except String α} {g : α → β}
    {b : β} :
    x.map g = Except.ok b ↔ ∃ a, x = Except.ok a ∧ g a = b := by
  cases x <;> simp [Except.map]

theorem foldlM_nil {σ α : Type} (f : σ → α → Except String σ) (st : σ) :
    List.foldlM f st ([] : List α) = Except.ok st := rfl

theorem foldlM_cons {σ α : Type} (f : σ → α → Except String σ) (st : σ)
    (x : α) (xs : List α) :
    List.foldlM f st (x :: xs) = f st x >>= fun st' => List.foldlM f st' xs :=
  rfl

theorem foldlM_error_head {σ α : Type} {f : σ → α → Except String σ} {st : σ}
    {x : α} {e : String} (xs : List α) (h : f st x = Except.error e) :
    List.foldlM f st (x :: xs) = Except.error e := by
  rw [foldlM_cons, h]; rfl

theorem foldlM_cons_ok_iff {σ α : Type} {f : σ → α → Except String σ} {st st' : σ}
    {x : α} {xs : List α} :
    List.foldlM f st (x :: xs) = Except.ok st' ↔
      ∃ mid, f st x = Except.ok mid ∧ List.foldlM f mid xs = Except.ok st' := by
  rw [foldlM_cons]; exact exceptBind_ok_iff

theorem foldlM_append_ok_iff {σ α : Type} {f : σ → α → Except String σ}
    {st st' : σ} {l₁ l₂ : List α} :
    List.foldlM f st (l₁ ++ l₂) = Except.ok st' ↔
      ∃ mid, List.foldlM f st l₁ = Except.ok mid ∧
        List.foldlM f mid l₂ = Except.ok st' := by
  induction l₁ generalizing st with
  | nil =>
    simp only [List.nil_append]
    constructor
    · intro h; exact ⟨st, rfl, h⟩
    · rintro ⟨mid, hm, h⟩
      have hst : st = mid :=
        Except.ok.inj (show (Except.ok st : Except String σ) = Except.ok mid from hm)
      rwa [hst]
  | cons x xs ih =>
    simp only [List.cons_append, foldlM_cons_ok_iff, ih]
    constructor
    · rintro ⟨mid, hx, mid2, h1, h2⟩; exact ⟨mid2, ⟨mid, hx, h1⟩, h2⟩
    · rintro ⟨mid2, ⟨mid, hx, h1⟩, h2⟩; exact ⟨mid, hx, mid2, h1, h2⟩

/-! ## Basic lemmas: the associative-list `Map` model -/

theorem mapGet_set_self {α : Type} (m : List (String × α)) (k : String)
    (v : α) : mapGet (mapSet m k v) k = some v := by
  induction m with
  | nil => simp [mapSet, mapGet]
  | cons p rest ih =>
    obtain ⟨k', v'⟩ := p
    by_cases h : k' = k
    · simp [mapSet, h, mapGet]
    · simp [mapSet, h, mapGet, ih]

theorem mapKeys_cons {α : Type} (a : String) (b : α)
    (rest : List (String × α)) :
    mapKeys ((a, b) :: rest) = a :: mapKeys rest := rfl

theorem mapGet_set_ne {α : Type} (m : List (String × α)) {k k' : String}
    (v : α) (h : k' ≠ k) : mapGet (mapSet m k v) k' = mapGet m k' := by
  have h' : k ≠ k' := Ne.symm h
  induction m with
  | nil => simp [mapSet, mapGet, h']
  | cons p rest ih =>
    obtain ⟨k'', v''⟩ := p
    by_cases h2 : k'' = k
    · subst h2
      simp [mapSet, mapGet, h']
    · simp only [mapSet, if_neg h2]
      by_cases h3 : k'' = k'
      · simp [mapGet, h3]
      · simp [mapGet, h3, ih]

theorem mapGet_eq_none_iff {α : Type} (m : List (String × α)) (k : String) :
    mapGet m k = none ↔ k ∉ mapKeys m := by
  induction m with
  | nil => simp [mapGet, mapKeys]
  | cons p rest ih =>
    obtain ⟨k', v'⟩ := p
    by_cases h : k' = k
    · subst h
      simp [mapGet, mapKeys_cons]
    · have h' : k ≠ k' := Ne.symm h
      simp [mapGet, h, mapKeys_cons, ih, List.mem_cons, h']

theorem mapKeys_set_of_get_none {α : Type} (m : List (String × α))
    {k : String} (v : α) (h : mapGet m k = none) :
    mapKeys (mapSet m k v) = mapKeys m ++ [k] := by
  induction m with
  | nil => simp [mapSet, mapKeys]
  | cons p rest ih =>
    obtain ⟨k', v'⟩ := p
    by_cases h2 : k' = k
    · simp [mapGet, h2] at h
    · simp only [mapGet, if_neg h2] at h
      simp only [mapSet, if_neg h2, mapKeys_cons]
      rw [ih h]
      simp

theorem mapGet_isSome_set {α : Type} (m : List (String × α)) (k n : String)
    (v : α) (h : (mapGet m n).isSome) :
    (mapGet (mapSet m k v) n).isSome := by
  by_cases hk : n = k
  · subst hk; simp [mapGet_set_self]
  · rw [mapGet_set_ne m v hk]; exact h

/-! ## Basic lemmas: substring reporting -/

theorem charsHaveStart_append (l r : List Char) :
    charsHaveStart (l ++ r) l = true := by
  induction l with
  | nil => cases r <;> rfl
  | cons c cs ih => simp [charsHaveStart, ih]

theorem charsContain_of_start {l needle : List Char}
    (h : charsHaveStart l needle = true) : charsContain l needle = true := by
  cases l with
  | nil =>
    cases needle with
    | nil => rfl
    | cons d ds => simp [charsHaveStart] at h
  | cons c cs => simp [charsContain, h]

theorem charsContain_append_left (pre : List Char) {l needle : List Char}
    (h : charsContain l needle = true) :
    charsContain (pre ++ l) needle = true := by
  induction pre with
  | nil => exact h
  | cons c cs ih => simp [charsContain, ih]

theorem reportsName_affix (p n s : String) :
    reportsName (p ++ n ++ s) n = true := by
  unfold reportsName
  have h : (p ++ n ++ s).data = p.data ++ (n.data ++ s.data) := by
    simp [String.data_append]
  rw [h]
  exact charsContain_append_left p.data
    (charsContain_of_start (charsHaveStart_append n.data s.data))

end LZA

namespace LZA

/-! ## Push-if-absent (the `indexOf`-guarded push of the source) -/

theorem pushIfAbsent_mem (l : List String) (a : String) :
    a ∈ (if l.contains a then l else l ++ [a]) := by
  by_cases h : l.contains a
  · rw [if_pos h]; exact List.elem_iff.mp h
  · rw [if_neg h]; exact List.mem_append_right _ (List.mem_singleton_self a)

theorem pushIfAbsent_grow (l : List String) (a : String) {x : String}
    (h : x ∈ l) : x ∈ (if l.contains a then l else l ++ [a]) := by
  by_cases hc : l.contains a
  · rw [if_pos hc]; exact h
  · rw [if_neg hc]; exact List.mem_append_left _ h

theorem pushIfAbsent_nodup (l : List String) (a : String)
    (h : l.Nodup) : (if l.contains a then l else l ++ [a]).Nodup := by
  by_cases hc : l.contains a
  · rw [if_pos hc]; exact h
  · have ha : a ∉ l := fun hm => hc (List.elem_iff.mpr hm)
    rw [if_neg hc]
    simp [List.nodup_append, h, ha]

/-! ## Shapes of the successful build steps -/

theorem routeTableStep_fields (vpcName : String) (igwId : Option String)
    (st : VpcBuildState) (rt : RouteTableItem) :
    (routeTableStep vpcName igwId st rt).subnetMap = st.subnetMap ∧
    (routeTableStep vpcName igwId st rt).natGatewayMap = st.natGatewayMap ∧
    (routeTableStep vpcName igwId st rt).transitGatewayAttachments =
      st.transitGatewayAttachments ∧
    (routeTableStep vpcName igwId st rt).s3EndpointRouteTables =
      st.s3EndpointRouteTables ∧
    (routeTableStep vpcName igwId st rt).dynamodbEndpointRouteTables =
      st.dynamodbEndpointRouteTables ∧
    (routeTableStep vpcName igwId st rt).ssmParameters =
      st.ssmParameters ++ [routeTableParam vpcName rt] ∧
    (routeTableStep vpcName igwId st rt).routeTableMap =
      mapSet st.routeTableMap rt.name
        { name := rt.name,
          routeTableId := routeTablePhysicalId vpcName rt.name,
          vpcInternetGatewayId := igwId } ∧
    (routeTableStep vpcName igwId st rt).resources =
      st.resources ++
        [Resource.routeTable vpcName rt.name
          (routeTablePhysicalId vpcName rt.name)] :=
  ⟨rfl, rfl, rfl, rfl, rfl, rfl, rfl, rfl⟩

theorem subnetStep_ok {env : Env} {vpcName : String} {st st' : VpcBuildState}
    {s : SubnetItem} (h : subnetStep env vpcName st s = Except.ok st') :
    st'.routeTableMap = st.routeTableMap ∧
    st'.natGatewayMap = st.natGatewayMap ∧
    st'.transitGatewayAttachments = st.transitGatewayAttachments ∧
    st'.s3EndpointRouteTables = st.s3EndpointRouteTables ∧
    st'.dynamodbEndpointRouteTables = st.dynamodbEndpointRouteTables ∧
    st'.ssmParameters = st.ssmParameters ++ [subnetParam vpcName s] ∧
    st'.subnetMap = mapSet st.subnetMap s.name
      { subnetId := subnetPhysicalId vpcName s.name } ∧
    ∃ r, st'.resources = st.resources ++ [r] ∧ isCrossAccountRole r = false := by
  unfold subnetStep at h
  cases hm : mapGet st.routeTableMap s.routeTable with
  | none => rw [hm] at h; cases h
  | some rt =>
    rw [hm] at h
    have h' := Except.ok.inj h
    subst h'
    exact ⟨rfl, rfl, rfl, rfl, rfl, rfl, rfl, _, rfl, rfl⟩

theorem natGatewayStep_ok {vpcName : String} {st st' : VpcBuildState}
    {n : NatGatewayItem} (h : natGatewayStep vpcName st n = Except.ok st') :
    st'.routeTableMap = st.routeTableMap ∧
    st'.subnetMap = st.subnetMap ∧
    st'.transitGatewayAttachments = st.transitGatewayAttachments ∧
    st'.s3EndpointRouteTables = st.s3EndpointRouteTables ∧
    st'.dynamodbEndpointRouteTables = st.dynamodbEndpointRouteTables ∧
    st'.ssmParameters = st.ssmParameters ++ [natGatewayParam vpcName n] ∧
    st'.natGatewayMap = mapSet st.natGatewayMap n.name
      { natGatewayId := natGatewayPhysicalId vpcName n.name } ∧
    ∃ r, st'.resources = st.resources ++ [r] ∧ isCrossAccountRole r = false := by
  unfold natGatewayStep at h
  cases hm : mapGet st.subnetMap n.subnet with
  | none => rw [hm] at h; cases h
  | some sn =>
    rw [hm] at h
    have h' := Except.ok.inj h
    subst h'
    exact ⟨rfl, rfl, rfl, rfl, rfl, rfl, rfl, _, rfl, rfl⟩

theorem attachmentStep_ok {tgwIds : List (String × String)}
    {vpcName vpcId : String} {st st' : VpcBuildState}
    {att : TransitGatewayAttachmentItem}
    (h : attachmentStep tgwIds vpcName vpcId st att = Except.ok st') :
    st'.routeTableMap = st.routeTableMap ∧
    st'.subnetMap = st.subnetMap ∧
    st'.natGatewayMap = st.natGatewayMap ∧
    st'.s3EndpointRouteTables = st.s3EndpointRouteTables ∧
    st'.dynamodbEndpointRouteTables = st.dynamodbEndpointRouteTables ∧
    st'.ssmParameters = st.ssmParameters ++ [attachmentParam vpcName att] ∧
    st'.transitGatewayAttachments = mapSet st.transitGatewayAttachments
      att.transitGateway.name
      { transitGatewayAttachmentId := attachmentPhysicalId att.name } ∧
    ∃ r, st'.resources = st.resources ++ [r] ∧ isCrossAccountRole r = false := by
  unfold attachmentStep at h
  cases hm : mapGet tgwIds att.transitGateway.name with
  | none => rw [hm] at h; cases h
  | some tid =>
    rw [hm] at h
    obtain ⟨subnetIds, hfold, heq⟩ := exceptMap_ok_iff.mp h
    subst heq
    exact ⟨rfl, rfl, rfl, rfl, rfl, rfl, rfl, _, rfl, rfl⟩

end LZA

namespace LZA

/-! ## Role-freeness helpers -/

theorem roleFree_append {l₁ l₂ : List Resource} (h1 : roleFree l₁)
    (h2 : roleFree l₂) : roleFree (l₁ ++ l₂) := by
  intro r hr
  rcases List.mem_append.mp hr with h | h
  · exact h1 r h
  · exact h2 r h

theorem roleFree_singleton_of {r : Resource}
    (h : isCrossAccountRole r = false) : roleFree [r] := by
  intro x hx
  rw [List.mem_singleton.mp hx]
  exact h

theorem addInternetGatewayRoute_ok_not_role {rt : RouteTableRes}
    {cid dest : String} {r : Resource}
    (h : addInternetGatewayRoute rt cid dest = Except.ok r) :
    isCrossAccountRole r = false := by
  unfold addInternetGatewayRoute at h
  by_cases hg : rt.vpcInternetGatewayId.getD "" = ""
  · rw [if_pos hg] at h; cases h
  · rw [if_neg hg] at h
    have := Except.ok.inj h
    subst this
    rfl

/-! ## The route-entry pass preserves maps and parameters -/

theorem entriesPreserves_refl (st : VpcBuildState) : entriesPreserves st st :=
  ⟨rfl, rfl, rfl, rfl, rfl, fun _ h => h, fun _ h => h, id, id, id⟩

theorem entriesPreserves_trans {a b c : VpcBuildState}
    (h1 : entriesPreserves a b) (h2 : entriesPreserves b c) :
    entriesPreserves a c := by
  obtain ⟨m1, m2, m3, m4, p, g3, gd, n3, nd, rf⟩ := h1
  obtain ⟨m1', m2', m3', m4', p', g3', gd', n3', nd', rf'⟩ := h2
  refine ⟨m1'.trans m1, m2'.trans m2, m3'.trans m3, m4'.trans m4,
    p'.trans p, ?_, ?_, ?_, ?_, ?_⟩
  · intro x hx
    exact g3' x (g3 x hx)
  · intro x hx
    exact gd' x (gd x hx)
  · intro h
    exact n3' (n3 h)
  · intro h
    exact nd' (nd h)
  · intro h
    exact rf' (rf h)

theorem routeEntryStep_ok_preserves {tgwIds : List (String × String)}
    {rt : RouteTableRes} {st st' : VpcBuildState} {e : RouteTableEntryItem}
    (h : routeEntryStep tgwIds rt st e = Except.ok st') :
    entriesPreserves st st' := by
  unfold routeEntryStep at h
  by_cases h1 : e.type = "transitGateway"
  · rw [if_pos h1] at h
    cases hm : mapGet tgwIds e.target with
    | none => rw [hm] at h; cases h
    | some tid =>
      rw [hm] at h
      cases hm2 : mapGet st.transitGatewayAttachments e.target with
      | none => rw [hm2] at h; cases h
      | some a =>
        rw [hm2] at h
        have heq := Except.ok.inj h
        subst heq
        exact ⟨rfl, rfl, rfl, rfl, rfl, fun _ hx => hx, fun _ hx => hx, id, id,
          fun hr => roleFree_append hr (roleFree_singleton_of rfl)⟩
  · rw [if_neg h1] at h
    by_cases h2 : e.type = "natGateway"
    · rw [if_pos h2] at h
      cases hm : mapGet st.natGatewayMap e.target with
      | none => rw [hm] at h; cases h
      | some ng =>
        rw [hm] at h
        have heq := Except.ok.inj h
        subst heq
        exact ⟨rfl, rfl, rfl, rfl, rfl, fun _ hx => hx, fun _ hx => hx, id, id,
          fun hr => roleFree_append hr (roleFree_singleton_of rfl)⟩
    · rw [if_neg h2] at h
      by_cases h3 : e.type = "internetGateway"
      · rw [if_pos h3] at h
        cases hr : addInternetGatewayRoute rt e.name e.destination with
        | error msg => rw [hr] at h; cases h
        | ok r =>
          rw [hr] at h
          have heq := Except.ok.inj h
          subst heq
          exact ⟨rfl, rfl, rfl, rfl, rfl, fun _ hx => hx, fun _ hx => hx, id, id,
            fun hfr => roleFree_append hfr
              (roleFree_singleton_of (addInternetGatewayRoute_ok_not_role hr))⟩
      · rw [if_neg h3] at h
        by_cases h4 : e.target = "s3"
        · rw [if_pos h4] at h
          have heq := Except.ok.inj h
          subst heq
          exact ⟨rfl, rfl, rfl, rfl, rfl,
            fun x hx => pushIfAbsent_grow _ _ hx, fun _ hx => hx,
            pushIfAbsent_nodup _ _, id, id⟩
        · rw [if_neg h4] at h
          by_cases h5 : e.target = "dynamodb"
          · rw [if_pos h5] at h
            have heq := Except.ok.inj h
            subst heq
            exact ⟨rfl, rfl, rfl, rfl, rfl,
              fun _ hx => hx, fun x hx => pushIfAbsent_grow _ _ hx,
              id, pushIfAbsent_nodup _ _, id⟩
          · rw [if_neg h5] at h
            have heq := Except.ok.inj h
            subst heq
            exact entriesPreserves_refl _

theorem foldlM_preserves_entries {α : Type}
    {f : VpcBuildState → α → Except String VpcBuildState}
    (hf : ∀ st x st', f st x = Except.ok st' → entriesPreserves st st') :
    ∀ (l : List α) (st st' : VpcBuildState),
      List.foldlM f st l = Except.ok st' → entriesPreserves st st' := by
  intro l
  induction l with
  | nil =>
    intro st st' h
    rw [foldlM_nil] at h
    have heq := Except.ok.inj h
    subst heq
    exact entriesPreserves_refl _
  | cons x xs ih =>
    intro st st' h
    obtain ⟨mid, hx, hrest⟩ := foldlM_cons_ok_iff.mp h
    exact entriesPreserves_trans (hf _ _ _ hx) (ih _ _ hrest)

theorem routeTableEntriesStep_ok_preserves {tgwIds : List (String × String)}
    {st st' : VpcBuildState} {rt : RouteTableItem}
    (h : routeTableEntriesStep tgwIds st rt = Except.ok st') :
    entriesPreserves st st' := by
  unfold routeTableEntriesStep at h
  cases hm : mapGet st.routeTableMap rt.name with
  | none => rw [hm] at h; cases h
  | some rtRes =>
    rw [hm] at h
    exact foldlM_preserves_entries
      (fun _ _ _ hstep => routeEntryStep_ok_preserves hstep) _ _ _ h

theorem entriesPhase_preserves {tgwIds : List (String × String)}
    {tables : List RouteTableItem} {st st' : VpcBuildState}
    (h : List.foldlM (routeTableEntriesStep tgwIds) st tables = Except.ok st') :
    entriesPreserves st st' :=
  foldlM_preserves_entries
    (fun _ _ _ hstep => routeTableEntriesStep_ok_preserves hstep) _ _ _ h

/-! ## Shapes of the endpoint-accumulating and skipped entry branches -/

theorem routeEntryStep_s3_shape (tgwIds : List (String × String))
    (rt : RouteTableRes) (st : VpcBuildState) (e : RouteTableEntryItem)
    (h1 : e.type ≠ "transitGateway") (h2 : e.type ≠ "natGateway")
    (h3 : e.type ≠ "internetGateway") (h4 : e.target = "s3") :
    routeEntryStep tgwIds rt st e = Except.ok { st with
      s3EndpointRouteTables :=
        if st.s3EndpointRouteTables.contains rt.routeTableId then
          st.s3EndpointRouteTables
        else st.s3EndpointRouteTables ++ [rt.routeTableId] } := by
  unfold routeEntryStep
  rw [if_neg h1, if_neg h2, if_neg h3, if_pos h4]

theorem routeEntryStep_dynamodb_shape (tgwIds : List (String × String))
    (rt : RouteTableRes) (st : VpcBuildState) (e : RouteTableEntryItem)
    (h1 : e.type ≠ "transitGateway") (h2 : e.type ≠ "natGateway")
    (h3 : e.type ≠ "internetGateway") (h4 : e.target ≠ "s3")
    (h5 : e.target = "dynamodb") :
    routeEntryStep tgwIds rt st e = Except.ok { st with
      dynamodbEndpointRouteTables :=
        if st.dynamodbEndpointRouteTables.contains rt.routeTableId then
          st.dynamodbEndpointRouteTables
        else st.dynamodbEndpointRouteTables ++ [rt.routeTableId] } := by
  unfold routeEntryStep
  rw [if_neg h1, if_neg h2, if_neg h3, if_neg h4, if_pos h5]

end LZA

namespace LZA

/-! ## Per-phase accumulation lemmas -/

theorem routeTablesPhase_fields (vpcName : String) (igwId : Option String) :
    ∀ (l : List RouteTableItem) (st : VpcBuildState),
      (l.foldl (routeTableStep vpcName igwId) st).ssmParameters =
        st.ssmParameters ++ l.map (routeTableParam vpcName) ∧
      (l.foldl (routeTableStep vpcName igwId) st).subnetMap = st.subnetMap ∧
      (l.foldl (routeTableStep vpcName igwId) st).natGatewayMap =
        st.natGatewayMap ∧
      (l.foldl (routeTableStep vpcName igwId) st).transitGatewayAttachments =
        st.transitGatewayAttachments ∧
      (l.foldl (routeTableStep vpcName igwId) st).s3EndpointRouteTables =
        st.s3EndpointRouteTables ∧
      (l.foldl (routeTableStep vpcName igwId) st).dynamodbEndpointRouteTables =
        st.dynamodbEndpointRouteTables ∧
      (roleFree st.resources →
        roleFree (l.foldl (routeTableStep vpcName igwId) st).resources) := by
  intro l
  induction l with
  | nil => intro st; exact ⟨by simp, rfl, rfl, rfl, rfl, rfl, id⟩
  | cons a l ih =>
    intro st
    have hstep := routeTableStep_fields vpcName igwId st a
    obtain ⟨h1, h2, h3, h4, h5, h6, h7, h8⟩ := hstep
    have hrec := ih (routeTableStep vpcName igwId st a)
    refine ⟨?_, ?_, ?_, ?_, ?_, ?_, ?_⟩
    · rw [List.foldl_cons, hrec.1, h6]
      simp [List.append_assoc]
    · rw [List.foldl_cons, hrec.2.1, h1]
    · rw [List.foldl_cons, hrec.2.2.1, h2]
    · rw [List.foldl_cons, hrec.2.2.2.1, h3]
    · rw [List.foldl_cons, hrec.2.2.2.2.1, h4]
    · rw [List.foldl_cons, hrec.2.2.2.2.2.1, h5]
    · intro hrf
      rw [List.foldl_cons]
      refine hrec.2.2.2.2.2.2 ?_
      rw [h8]
      exact roleFree_append hrf (roleFree_singleton_of rfl)

theorem subnetsPhase_ok {env : Env} {vpcName : String} :
    ∀ {l : List SubnetItem} {st st' : VpcBuildState},
      List.foldlM (subnetStep env vpcName) st l = Except.ok st' →
      st'.ssmParameters = st.ssmParameters ++ l.map (subnetParam vpcName) ∧
      st'.routeTableMap = st.routeTableMap ∧
      st'.natGatewayMap = st.natGatewayMap ∧
      st'.transitGatewayAttachments = st.transitGatewayAttachments ∧
      st'.s3EndpointRouteTables = st.s3EndpointRouteTables ∧
      st'.dynamodbEndpointRouteTables = st.dynamodbEndpointRouteTables ∧
      (roleFree st.resources → roleFree st'.resources) := by
  intro l
  induction l with
  | nil =>
    intro st st' h
    rw [foldlM_nil] at h
    have heq := Except.ok.inj h
    subst heq
    exact ⟨by simp, rfl, rfl, rfl, rfl, rfl, id⟩
  | cons a l ih =>
    intro st st' h
    obtain ⟨mid, hx, hrest⟩ := foldlM_cons_ok_iff.mp h
    obtain ⟨hrt, hnm, hta, hs3, hdd, hpar, hsm, r, hres, hr⟩ := subnetStep_ok hx
    obtain ⟨ipar, irt, inm, ita, is3, idd, irf⟩ := ih hrest
    refine ⟨?_, irt.trans hrt, inm.trans hnm, ita.trans hta,
      is3.trans hs3, idd.trans hdd, ?_⟩
    · rw [ipar, hpar]
      simp [List.append_assoc]
    · intro hrf
      refine irf ?_
      rw [hres]
      exact roleFree_append hrf (roleFree_singleton_of hr)

theorem natPhase_ok {vpcName : String} :
    ∀ {l : List NatGatewayItem} {st st' : VpcBuildState},
      List.foldlM (natGatewayStep vpcName) st l = Except.ok st' →
      st'.ssmParameters = st.ssmParameters ++ l.map (natGatewayParam vpcName) ∧
      st'.routeTableMap = st.routeTableMap ∧
      st'.subnetMap = st.subnetMap ∧
      st'.transitGatewayAttachments = st.transitGatewayAttachments ∧
      st'.s3EndpointRouteTables = st.s3EndpointRouteTables ∧
      st'.dynamodbEndpointRouteTables = st.dynamodbEndpointRouteTables ∧
      (roleFree st.resources → roleFree st'.resources) := by
  intro l
  induction l with
  | nil =>
    intro st st' h
    rw [foldlM_nil] at h
    have heq := Except.ok.inj h
    subst heq
    exact ⟨by simp, rfl, rfl, rfl, rfl, rfl, id⟩
  | cons a l ih =>
    intro st st' h
    obtain ⟨mid, hx, hrest⟩ := foldlM_cons_ok_iff.mp h
    obtain ⟨hrt, hsm, hta, hs3, hdd, hpar, hnm, r, hres, hr⟩ := natGatewayStep_ok hx
    obtain ⟨ipar, irt, ism, ita, is3, idd, irf⟩ := ih hrest
    refine ⟨?_, irt.trans hrt, ism.trans hsm, ita.trans hta,
      is3.trans hs3, idd.trans hdd, ?_⟩
    · rw [ipar, hpar]
      simp [List.append_assoc]
    · intro hrf
      refine irf ?_
      rw [hres]
      exact roleFree_append hrf (roleFree_singleton_of hr)

theorem attachmentsPhase_ok {tgwIds : List (String × String)}
    {vpcName vpcId : String} :
    ∀ {l : List TransitGatewayAttachmentItem} {st st' : VpcBuildState},
      List.foldlM (attachmentStep tgwIds vpcName vpcId) st l = Except.ok st' →
      st'.ssmParameters = st.ssmParameters ++ l.map (attachmentParam vpcName) ∧
      st'.routeTableMap = st.routeTableMap ∧
      st'.subnetMap = st.subnetMap ∧
      st'.natGatewayMap = st.natGatewayMap ∧
      st'.s3EndpointRouteTables = st.s3EndpointRouteTables ∧
      st'.dynamodbEndpointRouteTables = st.dynamodbEndpointRouteTables ∧
      (roleFree st.resources → roleFree st'.resources) := by
  intro l
  induction l with
  | nil =>
    intro st st' h
    rw [foldlM_nil] at h
    have heq := Except.ok.inj h
    subst heq
    exact ⟨by simp, rfl, rfl, rfl, rfl, rfl, id⟩
  | cons a l ih =>
    intro st st' h
    obtain ⟨mid, hx, hrest⟩ := foldlM_cons_ok_iff.mp h
    obtain ⟨hrt, hsm, hnm, hs3, hdd, hpar, hta, r, hres, hr⟩ := attachmentStep_ok hx
    obtain ⟨ipar, irt, ism, inm, is3, idd, irf⟩ := ih hrest
    refine ⟨?_, irt.trans hrt, ism.trans hsm, inm.trans hnm,
      is3.trans hs3, idd.trans hdd, ?_⟩
    · rw [ipar, hpar]
      simp [List.append_assoc]
    · intro hrf
      refine irf ?_
      rw [hres]
      exact roleFree_append hrf (roleFree_singleton_of hr)

theorem attachmentsPhase_attMap {tgwIds : List (String × String)}
    {vpcName vpcId : String} :
    ∀ {l : List TransitGatewayAttachmentItem} {st st' : VpcBuildState},
      List.foldlM (attachmentStep tgwIds vpcName vpcId) st l = Except.ok st' →
      ∀ n, mapGet st'.transitGatewayAttachments n =
        match lastAttachmentItemFor l n with
        | some a =>
          some { transitGatewayAttachmentId := attachmentPhysicalId a.name }
        | none => mapGet st.transitGatewayAttachments n := by
  intro l
  induction l with
  | nil =>
    intro st st' h n
    rw [foldlM_nil] at h
    have heq := Except.ok.inj h
    subst heq
    rfl
  | cons a l ih =>
    intro st st' h n
    obtain ⟨mid, hx, hrest⟩ := foldlM_cons_ok_iff.mp h
    have hmid := (attachmentStep_ok hx).2.2.2.2.2.2.1
    have hrec := ih hrest n
    cases hlast : lastAttachmentItemFor l n with
    | some b =>
      rw [hlast] at hrec
      simp only [lastAttachmentItemFor, hlast]
      exact hrec
    | none =>
      rw [hlast] at hrec
      simp only [lastAttachmentItemFor, hlast]
      rw [hrec, hmid]
      by_cases hn : a.transitGateway.name = n
      · subst hn
        rw [if_pos rfl, mapGet_set_self]
      · rw [if_neg hn, mapGet_set_ne _ _ (fun he => hn he.symm)]

theorem endpointsPhase_fields (vpcId : String) :
    ∀ (l : List String) (st : VpcBuildState),
      (l.foldl (gatewayEndpointStep vpcId) st).ssmParameters =
        st.ssmParameters ∧
      (roleFree st.resources →
        roleFree (l.foldl (gatewayEndpointStep vpcId) st).resources) := by
  intro l
  induction l with
  | nil => intro st; exact ⟨rfl, id⟩
  | cons g l ih =>
    intro st
    have hrec := ih (gatewayEndpointStep vpcId st g)
    constructor
    · rw [List.foldl_cons, hrec.1]
      unfold gatewayEndpointStep
      by_cases h1 : g = "s3"
      · rw [if_pos h1]
      · rw [if_neg h1]
        by_cases h2 : g = "dynamodb"
        · rw [if_pos h2]
        · rw [if_neg h2]
    · intro hrf
      rw [List.foldl_cons]
      refine hrec.2 ?_
      unfold gatewayEndpointStep
      by_cases h1 : g = "s3"
      · rw [if_pos h1]
        exact roleFree_append hrf (roleFree_singleton_of rfl)
      · rw [if_neg h1]
        by_cases h2 : g = "dynamodb"
        · rw [if_pos h2]
          exact roleFree_append hrf (roleFree_singleton_of rfl)
        · rw [if_neg h2]
          exact hrf

end LZA

namespace LZA

/-! ## Whole-VPC-build lemmas -/

theorem initialBuildState_roleFree (v : VpcItem) :
    roleFree (initialBuildState v).resources := by
  intro r hr
  unfold initialBuildState at hr
  simp only [List.mem_append, List.mem_singleton] at hr
  rcases hr with h | h
  · rw [h]; rfl
  · by_cases hig : v.internetGateway
    · rw [if_pos hig, List.mem_singleton] at h
      rw [h]; rfl
    · rw [if_neg hig] at h
      cases h

theorem buildVpc_ok_fields {env : Env} {tgwIds : List (String × String)}
    {v : VpcItem} {st' : VpcBuildState}
    (h : buildVpc env tgwIds v = Except.ok st') :
    st'.ssmParameters = publishedParametersSpec v ∧ roleFree st'.resources := by
  unfold buildVpc at h
  obtain ⟨st2, h2, h'⟩ := exceptBind_ok_iff.mp h
  obtain ⟨st3, h3, h''⟩ := exceptBind_ok_iff.mp h'
  obtain ⟨st4, h4, h'''⟩ := exceptBind_ok_iff.mp h''
  obtain ⟨st5, h5, hfin⟩ := exceptBind_ok_iff.mp h'''
  have hfin' := Except.ok.inj hfin
  subst hfin'
  have hrtp := routeTablesPhase_fields v.name (buildVpcIgwId v) v.routeTables
    (initialBuildState v)
  have hsub := subnetsPhase_ok h2
  have hnat := natPhase_ok h3
  have hatt := attachmentsPhase_ok h4
  have hent := entriesPhase_preserves h5
  have hend := endpointsPhase_fields (vpcPhysicalId v.name) v.gatewayEndpoints st5
  constructor
  · rw [hend.1, hent.2.2.2.2.1, hatt.1, hnat.1, hsub.1, hrtp.1]
    show ([vpcIdParam v.name] ++ _) ++ _ ++ _ ++ _ = _
    unfold publishedParametersSpec
    simp [List.append_assoc]
  · refine hend.2 (hent.2.2.2.2.2.2.2.2.2 (hatt.2.2.2.2.2.2
      (hnat.2.2.2.2.2.2 (hsub.2.2.2.2.2.2 (hrtp.2.2.2.2.2.2 ?_)))))
    exact initialBuildState_roleFree v

end LZA

namespace LZA

/-! ## Resolution-pass step lemmas -/

theorem resolveAttachmentStep_hit {env : Env} {st : TgwResolutionState}
    {att : TransitGatewayAttachmentItem}
    (h : (mapGet st.transitGatewayIds att.transitGateway.name).isSome = true) :
    resolveAttachmentStep env st att = st := by
  unfold resolveAttachmentStep
  rw [if_pos h]

theorem resolveAttachmentStep_ids_mono {env : Env} {st : TgwResolutionState}
    {att : TransitGatewayAttachmentItem} {n : String}
    (h : (mapGet st.transitGatewayIds n).isSome = true) :
    (mapGet (resolveAttachmentStep env st att).transitGatewayIds n).isSome =
      true := by
  unfold resolveAttachmentStep
  by_cases hit : (mapGet st.transitGatewayIds att.transitGateway.name).isSome = true
  · rw [if_pos hit]; exact h
  · rw [if_neg hit]
    by_cases hloc :
        (env.accountIdOf att.transitGateway.account == env.account) = true
    · rw [if_pos hloc]
      exact mapGet_isSome_set _ _ _ _ h
    · rw [if_neg hloc]
      exact mapGet_isSome_set _ _ _ _ h

theorem resolveAttachmentStep_adds {env : Env} {st : TgwResolutionState}
    {att : TransitGatewayAttachmentItem} :
    (mapGet (resolveAttachmentStep env st att).transitGatewayIds
      att.transitGateway.name).isSome = true := by
  unfold resolveAttachmentStep
  by_cases hit : (mapGet st.transitGatewayIds att.transitGateway.name).isSome = true
  · rw [if_pos hit]; exact hit
  · rw [if_neg hit]
    by_cases hloc :
        (env.accountIdOf att.transitGateway.account == env.account) = true
    · rw [if_pos hloc]
      simp [mapGet_set_self]
    · rw [if_neg hloc]
      simp [mapGet_set_self]

theorem resolveAttachmentStep_accts_mono {env : Env} {st : TgwResolutionState}
    {att : TransitGatewayAttachmentItem} {x : String}
    (h : x ∈ st.transitGatewayAccountIds) :
    x ∈ (resolveAttachmentStep env st att).transitGatewayAccountIds := by
  unfold resolveAttachmentStep
  by_cases hit : (mapGet st.transitGatewayIds att.transitGateway.name).isSome = true
  · rw [if_pos hit]; exact h
  · rw [if_neg hit]
    by_cases hloc :
        (env.accountIdOf att.transitGateway.account == env.account) = true
    · rw [if_pos hloc]; exact h
    · rw [if_neg hloc]
      exact pushIfAbsent_grow _ _ h

theorem resolveAttachmentStep_keys_nodup {env : Env} {st : TgwResolutionState}
    {att : TransitGatewayAttachmentItem}
    (h : (mapKeys st.transitGatewayIds).Nodup) :
    (mapKeys (resolveAttachmentStep env st att).transitGatewayIds).Nodup := by
  unfold resolveAttachmentStep
  by_cases hit : (mapGet st.transitGatewayIds att.transitGateway.name).isSome = true
  · rw [if_pos hit]; exact h
  · rw [if_neg hit]
    have hnone : mapGet st.transitGatewayIds att.transitGateway.name = none :=
      Option.not_isSome_iff_eq_none.mp (by simpa using hit)
    have hnot : att.transitGateway.name ∉ mapKeys st.transitGatewayIds :=
      (mapGet_eq_none_iff _ _).mp hnone
    by_cases hloc :
        (env.accountIdOf att.transitGateway.account == env.account) = true
    · rw [if_pos hloc]
      show (mapKeys (mapSet st.transitGatewayIds _ _)).Nodup
      rw [mapKeys_set_of_get_none _ _ hnone]
      simp [List.nodup_append, h, hnot]
    · rw [if_neg hloc]
      show (mapKeys (mapSet st.transitGatewayIds _ _)).Nodup
      rw [mapKeys_set_of_get_none _ _ hnone]
      simp [List.nodup_append, h, hnot]

theorem resolveAttachmentStep_accts_nodup {env : Env} {st : TgwResolutionState}
    {att : TransitGatewayAttachmentItem}
    (h : st.transitGatewayAccountIds.Nodup) :
    (resolveAttachmentStep env st att).transitGatewayAccountIds.Nodup := by
  unfold resolveAttachmentStep
  by_cases hit : (mapGet st.transitGatewayIds att.transitGateway.name).isSome = true
  · rw [if_pos hit]; exact h
  · rw [if_neg hit]
    by_cases hloc :
        (env.accountIdOf att.transitGateway.account == env.account) = true
    · rw [if_pos hloc]; exact h
    · rw [if_neg hloc]
      exact pushIfAbsent_nodup _ _ h

theorem resolveAttachmentStep_accts_sound {env : Env}
    {st : TgwResolutionState} {att : TransitGatewayAttachmentItem} {x : String}
    (h : x ∈ (resolveAttachmentStep env st att).transitGatewayAccountIds) :
    x ∈ st.transitGatewayAccountIds ∨
      (x = env.accountIdOf att.transitGateway.account ∧
        env.accountIdOf att.transitGateway.account ≠ env.account) := by
  unfold resolveAttachmentStep at h
  by_cases hit : (mapGet st.transitGatewayIds att.transitGateway.name).isSome = true
  · rw [if_pos hit] at h; exact Or.inl h
  · rw [if_neg hit] at h
    by_cases hloc :
        (env.accountIdOf att.transitGateway.account == env.account) = true
    · rw [if_pos hloc] at h; exact Or.inl h
    · rw [if_neg hloc] at h
      have hne : env.accountIdOf att.transitGateway.account ≠ env.account :=
        fun he => hloc (by simp [he])
      simp only at h
      by_cases hc : st.transitGatewayAccountIds.contains
          (env.accountIdOf att.transitGateway.account)
      · rw [if_pos hc] at h; exact Or.inl h
      · rw [if_neg hc] at h
        rcases List.mem_append.mp h with hmem | hmem
        · exact Or.inl hmem
        · exact Or.inr ⟨List.mem_singleton.mp hmem, hne⟩

theorem resolveAttachmentStep_invariant {env : Env} {ownerOf : String → String}
    {st : TgwResolutionState} {att : TransitGatewayAttachmentItem}
    (hcons : env.accountIdOf att.transitGateway.account =
      ownerOf att.transitGateway.name)
    (hI : acctsInvariant env ownerOf st) :
    acctsInvariant env ownerOf (resolveAttachmentStep env st att) := by
  unfold resolveAttachmentStep
  by_cases hit : (mapGet st.transitGatewayIds att.transitGateway.name).isSome = true
  · rw [if_pos hit]; exact hI
  · rw [if_neg hit]
    by_cases hloc :
        (env.accountIdOf att.transitGateway.account == env.account) = true
    · rw [if_pos hloc]
      intro n hsome hne
      by_cases hn : n = att.transitGateway.name
      · subst hn
        exact absurd (hcons ▸ eq_of_beq hloc) hne
      · rw [mapGet_set_ne _ _ hn] at hsome
        exact hI n hsome hne
    · rw [if_neg hloc]
      intro n hsome hne
      by_cases hn : n = att.transitGateway.name
      · subst hn
        rw [← hcons]
        exact pushIfAbsent_mem _ _
      · rw [mapGet_set_ne _ _ hn] at hsome
        exact pushIfAbsent_grow _ _ (hI n hsome hne)

end LZA

namespace LZA

/-! ## Resolution-pass fold lemmas (attachment lists) -/

theorem resolveFoldA_ids_mono {env : Env} :
    ∀ (l : List TransitGatewayAttachmentItem) (st : TgwResolutionState)
      {n : String},
      (mapGet st.transitGatewayIds n).isSome = true →
      (mapGet (l.foldl (resolveAttachmentStep env) st).transitGatewayIds
        n).isSome = true := by
  intro l
  induction l with
  | nil => intro st n h; exact h
  | cons a l ih =>
    intro st n h
    rw [List.foldl_cons]
    exact ih _ (resolveAttachmentStep_ids_mono h)

theorem resolveFoldA_adds {env : Env} :
    ∀ (l : List TransitGatewayAttachmentItem) (st : TgwResolutionState)
      {att : TransitGatewayAttachmentItem}, att ∈ l →
      (mapGet (l.foldl (resolveAttachmentStep env) st).transitGatewayIds
        att.transitGateway.name).isSome = true := by
  intro l
  induction l with
  | nil => intro st att h; cases h
  | cons a l ih =>
    intro st att h
    rw [List.foldl_cons]
    rcases List.mem_cons.mp h with he | hm
    · subst he
      exact resolveFoldA_ids_mono l _ resolveAttachmentStep_adds
    · exact ih _ hm

theorem resolveFoldA_keys_nodup {env : Env} :
    ∀ (l : List TransitGatewayAttachmentItem) (st : TgwResolutionState),
      (mapKeys st.transitGatewayIds).Nodup →
      (mapKeys
        (l.foldl (resolveAttachmentStep env) st).transitGatewayIds).Nodup := by
  intro l
  induction l with
  | nil => intro st h; exact h
  | cons a l ih =>
    intro st h
    rw [List.foldl_cons]
    exact ih _ (resolveAttachmentStep_keys_nodup h)

theorem resolveFoldA_accts_nodup {env : Env} :
    ∀ (l : List TransitGatewayAttachmentItem) (st : TgwResolutionState),
      st.transitGatewayAccountIds.Nodup →
      (l.foldl (resolveAttachmentStep env) st).transitGatewayAccountIds.Nodup := by
  intro l
  induction l with
  | nil => intro st h; exact h
  | cons a l ih =>
    intro st h
    rw [List.foldl_cons]
    exact ih _ (resolveAttachmentStep_accts_nodup h)

theorem resolveFoldA_accts_mono {env : Env} :
    ∀ (l : List TransitGatewayAttachmentItem) (st : TgwResolutionState)
      {x : String}, x ∈ st.transitGatewayAccountIds →
      x ∈ (l.foldl (resolveAttachmentStep env) st).transitGatewayAccountIds := by
  intro l
  induction l with
  | nil => intro st x h; exact h
  | cons a l ih =>
    intro st x h
    rw [List.foldl_cons]
    exact ih _ (resolveAttachmentStep_accts_mono h)

theorem resolveFoldA_accts_sound {env : Env} :
    ∀ (l : List TransitGatewayAttachmentItem) (st : TgwResolutionState)
      {x : String},
      x ∈ (l.foldl (resolveAttachmentStep env) st).transitGatewayAccountIds →
      x ∈ st.transitGatewayAccountIds ∨
        ∃ att ∈ l, x = env.accountIdOf att.transitGateway.account ∧
          env.accountIdOf att.transitGateway.account ≠ env.account := by
  intro l
  induction l with
  | nil => intro st x h; exact Or.inl h
  | cons a l ih =>
    intro st x h
    rw [List.foldl_cons] at h
    rcases ih _ h with hmem | ⟨att, hatt, hx⟩
    · rcases resolveAttachmentStep_accts_sound hmem with hmem' | hx
      · exact Or.inl hmem'
      · exact Or.inr ⟨a, List.mem_cons_self a l, hx⟩
    · exact Or.inr ⟨att, List.mem_cons_of_mem a hatt, hx⟩

theorem resolveFoldA_invariant {env : Env} {ownerOf : String → String} :
    ∀ (l : List TransitGatewayAttachmentItem) (st : TgwResolutionState),
      (∀ att ∈ l, env.accountIdOf att.transitGateway.account =
        ownerOf att.transitGateway.name) →
      acctsInvariant env ownerOf st →
      acctsInvariant env ownerOf (l.foldl (resolveAttachmentStep env) st) := by
  intro l
  induction l with
  | nil => intro st _ h; exact h
  | cons a l ih =>
    intro st hcons h
    rw [List.foldl_cons]
    exact ih _ (fun att hm => hcons att (List.mem_cons_of_mem a hm))
      (resolveAttachmentStep_invariant (hcons a (List.mem_cons_self a l)) h)

/-! ## Resolution-pass fold lemmas (VPC lists) -/

theorem resolveFoldV_ids_mono {env : Env} :
    ∀ (vpcs : List VpcItem) (st : TgwResolutionState) {n : String},
      (mapGet st.transitGatewayIds n).isSome = true →
      (mapGet (vpcs.foldl (resolveVpcStep env) st).transitGatewayIds
        n).isSome = true := by
  intro vpcs
  induction vpcs with
  | nil => intro st n h; exact h
  | cons w ws ih =>
    intro st n h
    rw [List.foldl_cons]
    refine ih _ ?_
    unfold resolveVpcStep
    by_cases hm : vpcMatches env w
    · rw [if_pos hm]
      exact resolveFoldA_ids_mono _ _ h
    · rw [if_neg hm]
      exact h

theorem resolveFoldV_keys_nodup {env : Env} :
    ∀ (vpcs : List VpcItem) (st : TgwResolutionState),
      (mapKeys st.transitGatewayIds).Nodup →
      (mapKeys
        (vpcs.foldl (resolveVpcStep env) st).transitGatewayIds).Nodup := by
  intro vpcs
  induction vpcs with
  | nil => intro st h; exact h
  | cons w ws ih =>
    intro st h
    rw [List.foldl_cons]
    refine ih _ ?_
    unfold resolveVpcStep
    by_cases hm : vpcMatches env w
    · rw [if_pos hm]
      exact resolveFoldA_keys_nodup _ _ h
    · rw [if_neg hm]
      exact h

theorem resolveFoldV_accts_nodup {env : Env} :
    ∀ (vpcs : List VpcItem) (st : TgwResolutionState),
      st.transitGatewayAccountIds.Nodup →
      (vpcs.foldl (resolveVpcStep env) st).transitGatewayAccountIds.Nodup := by
  intro vpcs
  induction vpcs with
  | nil => intro st h; exact h
  | cons w ws ih =>
    intro st h
    rw [List.foldl_cons]
    refine ih _ ?_
    unfold resolveVpcStep
    by_cases hm : vpcMatches env w
    · rw [if_pos hm]
      exact resolveFoldA_accts_nodup _ _ h
    · rw [if_neg hm]
      exact h

theorem resolveFoldV_accts_mono {env : Env} :
    ∀ (vpcs : List VpcItem) (st : TgwResolutionState) {x : String},
      x ∈ st.transitGatewayAccountIds →
      x ∈ (vpcs.foldl (resolveVpcStep env) st).transitGatewayAccountIds := by
  intro vpcs
  induction vpcs with
  | nil => intro st x h; exact h
  | cons w ws ih =>
    intro st x h
    rw [List.foldl_cons]
    refine ih _ ?_
    unfold resolveVpcStep
    by_cases hm : vpcMatches env w
    · rw [if_pos hm]
      exact resolveFoldA_accts_mono _ _ h
    · rw [if_neg hm]
      exact h

theorem resolveFoldV_presence {env : Env} :
    ∀ (vpcs : List VpcItem) (st : TgwResolutionState) {v : VpcItem}
      {att : TransitGatewayAttachmentItem},
      v ∈ vpcs → vpcMatches env v = true →
      att ∈ v.transitGatewayAttachments →
      (mapGet (vpcs.foldl (resolveVpcStep env) st).transitGatewayIds
        att.transitGateway.name).isSome = true := by
  intro vpcs
  induction vpcs with
  | nil => intro st v att h; cases h
  | cons w ws ih =>
    intro st v att hv hm hatt
    rw [List.foldl_cons]
    rcases List.mem_cons.mp hv with he | hmem
    · subst he
      refine resolveFoldV_ids_mono ws _ ?_
      unfold resolveVpcStep
      rw [if_pos hm]
      exact resolveFoldA_adds _ _ hatt
    · exact ih _ hmem hm hatt

theorem resolveFoldV_accts_sound {env : Env} :
    ∀ (vpcs : List VpcItem) (st : TgwResolutionState) {x : String},
      x ∈ (vpcs.foldl (resolveVpcStep env) st).transitGatewayAccountIds →
      x ∈ st.transitGatewayAccountIds ∨
        ∃ v ∈ vpcs, vpcMatches env v = true ∧
          ∃ att ∈ v.transitGatewayAttachments,
            x = env.accountIdOf att.transitGateway.account ∧
            env.accountIdOf att.transitGateway.account ≠ env.account := by
  intro vpcs
  induction vpcs with
  | nil => intro st x h; exact Or.inl h
  | cons w ws ih =>
    intro st x h
    rw [List.foldl_cons] at h
    rcases ih _ h with hmem | ⟨v, hv, hm, hwit⟩
    · by_cases hmw : vpcMatches env w
      · rw [show resolveVpcStep env st w =
            w.transitGatewayAttachments.foldl (resolveAttachmentStep env) st by
              unfold resolveVpcStep; rw [if_pos hmw]] at hmem
        rcases resolveFoldA_accts_sound _ _ hmem with hmem' | ⟨att, hatt, hx⟩
        · exact Or.inl hmem'
        · exact Or.inr ⟨w, List.mem_cons_self w ws, hmw, att, hatt, hx⟩
      · rw [show resolveVpcStep env st w = st by
            unfold resolveVpcStep; rw [if_neg hmw]] at hmem
        exact Or.inl hmem
    · exact Or.inr ⟨v, List.mem_cons_of_mem w hv, hm, hwit⟩

theorem resolveFoldV_invariant {env : Env} {ownerOf : String → String} :
    ∀ (vpcs : List VpcItem) (st : TgwResolutionState),
      ownerConsistent env ownerOf vpcs →
      acctsInvariant env ownerOf st →
      acctsInvariant env ownerOf (vpcs.foldl (resolveVpcStep env) st) := by
  intro vpcs
  induction vpcs with
  | nil => intro st _ h; exact h
  | cons w ws ih =>
    intro st hcons h
    rw [List.foldl_cons]
    refine ih _ (fun v hv hm att hatt =>
      hcons v (List.mem_cons_of_mem w hv) hm att hatt) ?_
    unfold resolveVpcStep
    by_cases hmw : vpcMatches env w
    · rw [if_pos hmw]
      exact resolveFoldA_invariant _ _
        (fun att hatt => hcons w (List.mem_cons_self w ws) hmw att hatt) h
    · rw [if_neg hmw]
      exact h

end LZA

namespace LZA

/-! ## Whole-resolution-pass lemmas -/

theorem resolve_keys_nodup (env : Env) (vpcs : List VpcItem) :
    (mapKeys (resolveTransitGateways env vpcs).transitGatewayIds).Nodup := by
  unfold resolveTransitGateways
  exact resolveFoldV_keys_nodup vpcs _ (by simp [mapKeys])

theorem resolve_accts_nodup (env : Env) (vpcs : List VpcItem) :
    (resolveTransitGateways env vpcs).transitGatewayAccountIds.Nodup := by
  unfold resolveTransitGateways
  exact resolveFoldV_accts_nodup vpcs _ (by simp)

theorem resolve_presence {env : Env} {vpcs : List VpcItem} {v : VpcItem}
    {att : TransitGatewayAttachmentItem} (hv : v ∈ vpcs)
    (hm : vpcMatches env v = true) (hatt : att ∈ v.transitGatewayAttachments) :
    (mapGet (resolveTransitGateways env vpcs).transitGatewayIds
      att.transitGateway.name).isSome = true := by
  unfold resolveTransitGateways
  exact resolveFoldV_presence vpcs _ hv hm hatt

theorem resolve_accts_sound {env : Env} {vpcs : List VpcItem} {x : String}
    (h : x ∈ (resolveTransitGateways env vpcs).transitGatewayAccountIds) :
    ∃ v ∈ vpcs, vpcMatches env v = true ∧
      ∃ att ∈ v.transitGatewayAttachments,
        x = env.accountIdOf att.transitGateway.account ∧
        env.accountIdOf att.transitGateway.account ≠ env.account := by
  unfold resolveTransitGateways at h
  rcases resolveFoldV_accts_sound vpcs _ h with hmem | hwit
  · cases hmem
  · exact hwit

theorem resolve_invariant {env : Env} {ownerOf : String → String}
    {vpcs : List VpcItem} (hcons : ownerConsistent env ownerOf vpcs) :
    acctsInvariant env ownerOf (resolveTransitGateways env vpcs) := by
  unfold resolveTransitGateways
  refine resolveFoldV_invariant vpcs _ hcons ?_
  intro n h
  simp [mapGet] at h

theorem resolve_complete {env : Env} {ownerOf : String → String}
    {vpcs : List VpcItem} {v : VpcItem}
    {att : TransitGatewayAttachmentItem}
    (hcons : ownerConsistent env ownerOf vpcs) (hv : v ∈ vpcs)
    (hm : vpcMatches env v = true) (hatt : att ∈ v.transitGatewayAttachments)
    (hne : env.accountIdOf att.transitGateway.account ≠ env.account) :
    env.accountIdOf att.transitGateway.account ∈
      (resolveTransitGateways env vpcs).transitGatewayAccountIds := by
  have hpres := resolve_presence hv hm hatt
  have hinv := resolve_invariant hcons
  have heq := hcons v hv hm att hatt
  have hres := hinv att.transitGateway.name hpres (heq ▸ hne)
  rwa [← heq] at hres

/-! ## Synthesis-level role accounting -/

theorem countRoles_append_roleFree {l₁ l₂ : List Resource}
    (h : roleFree l₂) :
    countCrossAccountRoles (l₁ ++ l₂) = countCrossAccountRoles l₁ := by
  unfold countCrossAccountRoles
  rw [List.filter_append]
  have h2 : l₂.filter isCrossAccountRole = [] := by
    rw [List.filter_eq_nil_iff]
    intro a ha
    simp [h a ha]
  rw [h2, List.append_nil]

theorem vpcOutputStep_ok_roles {env : Env} {tgwIds : List (String × String)}
    {out out' : Output} {v : VpcItem}
    (h : vpcOutputStep env tgwIds out v = Except.ok out') :
    countCrossAccountRoles out'.resources =
      countCrossAccountRoles out.resources ∧
    (∀ r ∈ out.resources, r ∈ out'.resources) := by
  unfold vpcOutputStep at h
  by_cases hm : vpcMatches env v
  · rw [if_pos hm] at h
    obtain ⟨bst, hb, heq⟩ := exceptMap_ok_iff.mp h
    subst heq
    refine ⟨countRoles_append_roleFree (buildVpc_ok_fields hb).2, ?_⟩
    intro r hr
    exact List.mem_append_left _ hr
  · rw [if_neg hm] at h
    have heq := Except.ok.inj h
    subst heq
    exact ⟨rfl, fun r hr => hr⟩

theorem synthFold_roles {env : Env} {tgwIds : List (String × String)} :
    ∀ (l : List VpcItem) (out out' : Output),
      List.foldlM (vpcOutputStep env tgwIds) out l = Except.ok out' →
      countCrossAccountRoles out'.resources =
        countCrossAccountRoles out.resources ∧
      (∀ r ∈ out.resources, r ∈ out'.resources) := by
  intro l
  induction l with
  | nil =>
    intro out out' h
    rw [foldlM_nil] at h
    have heq := Except.ok.inj h
    subst heq
    exact ⟨rfl, fun r hr => hr⟩
  | cons v l ih =>
    intro out out' h
    obtain ⟨mid, hv, hrest⟩ := foldlM_cons_ok_iff.mp h
    obtain ⟨hc1, hm1⟩ := vpcOutputStep_ok_roles hv
    obtain ⟨hc2, hm2⟩ := ih _ _ hrest
    exact ⟨hc2.trans hc1, fun r hr => hm2 r (hm1 r hr)⟩

theorem baseOutput_role_count (env : Env) (cfg : NetworkConfig) :
    countCrossAccountRoles (baseOutput env cfg).resources =
      if (resolveTransitGateways env cfg.vpcs).transitGatewayAccountIds = []
      then 0 else 1 := by
  unfold baseOutput countCrossAccountRoles
  rw [List.filter_append]
  have h1 : (if cfg.deleteDefaultVpc then [Resource.deleteDefaultVpc]
      else []).filter isCrossAccountRole = [] := by
    by_cases hd : cfg.deleteDefaultVpc
    · rw [if_pos hd]; rfl
    · rw [if_neg hd]; rfl
  rw [h1]
  cases hacc : (resolveTransitGateways env cfg.vpcs).transitGatewayAccountIds with
  | nil => simp [hacc]
  | cons a as => simp [hacc, isCrossAccountRole]

theorem baseOutput_role_mem (env : Env) (cfg : NetworkConfig)
    (h : (resolveTransitGateways env cfg.vpcs).transitGatewayAccountIds ≠ []) :
    Resource.crossAccountRole
      (resolveTransitGateways env cfg.vpcs).transitGatewayAccountIds ∈
      (baseOutput env cfg).resources := by
  unfold baseOutput
  refine List.mem_append_right _ ?_
  have hlen : 0 <
      (resolveTransitGateways env cfg.vpcs).transitGatewayAccountIds.length :=
    List.length_pos.mpr h
  rw [if_pos hlen]
  exact List.mem_singleton_self _

end LZA

namespace LZA

/-- C1: adding an internet-gateway route on a route table whose owning VPC
has no internet-gateway identifier throws the IGW invariant error and
produces no route resource; on a VPC with an internet-gateway identifier
the call succeeds and creates exactly the route targeting that gateway.
The third component shows the route-entry dispatch of the stack surfaces
the same error. -/
theorem internetGatewayRoute_invariant :
    ∀ (rt : RouteTableRes) (cid dest : String),
      (rt.vpcInternetGatewayId = none →
        addInternetGatewayRoute rt cid dest = Except.error
          "Attempting to add Internet Gateway route without an IGW defined.") ∧
      (∀ g, g ≠ "" → rt.vpcInternetGatewayId = some g →
        addInternetGatewayRoute rt cid dest =
          Except.ok (Resource.route rt.routeTableId dest
            (RouteTarget.internetGateway g))) ∧
      (∀ (tgwIds : List (String × String)) (st : VpcBuildState)
        (e : RouteTableEntryItem), e.type = "internetGateway" →
        rt.vpcInternetGatewayId = none →
        routeEntryStep tgwIds rt st e = Except.error
          "Attempting to add Internet Gateway route without an IGW defined.") := by
  intro rt cid dest
  refine ⟨?_, ?_, ?_⟩
  · intro h
    unfold addInternetGatewayRoute
    rw [h]
    rfl
  · intro g hg hsome
    unfold addInternetGatewayRoute
    rw [hsome]
    simp only [Option.getD_some]
    rw [if_neg hg]
  · intro tgwIds st e htype hnone
    unfold routeEntryStep
    rw [htype]
    rw [if_neg (by decide), if_neg (by decide), if_pos rfl]
    have herr : addInternetGatewayRoute rt e.name e.destination = Except.error
        "Attempting to add Internet Gateway route without an IGW defined." := by
      unfold addInternetGatewayRoute
      rw [hnone]
      rfl
    rw [herr]

theorem internetGatewayRoute_invariant_witness :
    ({ name := "Public", routeTableId := "rtb-A-Public",
       vpcInternetGatewayId := none } : RouteTableRes).vpcInternetGatewayId
      = none ∧
    addInternetGatewayRoute
      { name := "Public", routeTableId := "rtb-A-Public",
        vpcInternetGatewayId := none } "Ig" "0.0.0.0/0" = Except.error
      "Attempting to add Internet Gateway route without an IGW defined." :=
  ⟨rfl,
   (internetGatewayRoute_invariant
     { name := "Public", routeTableId := "rtb-A-Public",
       vpcInternetGatewayId := none } "Ig" "0.0.0.0/0").1 rfl⟩

/-- C2: every unresolved name reference (subnet→route table, NAT
gateway→subnet, attachment→transit gateway or subnet, route
entry→transit gateway / attachment / NAT gateway) makes the corresponding
step throw a configuration error whose message contains the unresolved
name, and an error at one element of a pass aborts the whole fold, so no
later step runs. -/
theorem unresolved_reference_aborts :
    (∀ (env : Env) (vpcName : String) (st : VpcBuildState) (s : SubnetItem),
      mapGet st.routeTableMap s.routeTable = none →
      subnetStep env vpcName st s =
        Except.error ("Route table " ++ s.routeTable ++ " not defined")) ∧
    (∀ (vpcName : String) (st : VpcBuildState) (n : NatGatewayItem),
      mapGet st.subnetMap n.subnet = none →
      natGatewayStep vpcName st n =
        Except.error ("Subnet " ++ n.subnet ++ " not defined")) ∧
    (∀ (tgwIds : List (String × String)) (vpcName vpcId : String)
      (st : VpcBuildState) (att : TransitGatewayAttachmentItem),
      mapGet tgwIds att.transitGateway.name = none →
      attachmentStep tgwIds vpcName vpcId st att = Except.error
        ("Transit Gateway " ++ att.transitGateway.name ++ " not found")) ∧
    (∀ (st : VpcBuildState) (acc : List String) (subnetName : String),
      mapGet st.subnetMap subnetName = none →
      attachmentSubnetStep st acc subnetName =
        Except.error ("Subnet " ++ subnetName ++ " not defined")) ∧
    (∀ (tgwIds : List (String × String)) (rt : RouteTableRes)
      (st : VpcBuildState) (e : RouteTableEntryItem),
      e.type = "transitGateway" → mapGet tgwIds e.target = none →
      routeEntryStep tgwIds rt st e =
        Except.error ("Transit Gateway " ++ e.target ++ " not found")) ∧
    (∀ (tgwIds : List (String × String)) (rt : RouteTableRes)
      (st : VpcBuildState) (e : RouteTableEntryItem) (tid : String),
      e.type = "transitGateway" → mapGet tgwIds e.target = some tid →
      mapGet st.transitGatewayAttachments e.target = none →
      routeEntryStep tgwIds rt st e = Except.error
        ("Transit Gateway Attachment " ++ e.target ++ " not found")) ∧
    (∀ (tgwIds : List (String × String)) (rt : RouteTableRes)
      (st : VpcBuildState) (e : RouteTableEntryItem),
      e.type = "natGateway" → mapGet st.natGatewayMap e.target = none →
      routeEntryStep tgwIds rt st e =
        Except.error ("NAT Gateway " ++ e.target ++ " not found")) ∧
    (∀ {σ α : Type} (f : σ → α → Except String σ) (st : σ) (x : α)
      (xs : List α) (msg : String), f st x = Except.error msg →
      List.foldlM f st (x :: xs) = Except.error msg) := by
  refine ⟨?_, ?_, ?_, ?_, ?_, ?_, ?_, ?_⟩
  · intro env vpcName st s h
    unfold subnetStep
    rw [h]
  · intro vpcName st n h
    unfold natGatewayStep
    rw [h]
  · intro tgwIds vpcName vpcId st att h
    unfold attachmentStep
    rw [h]
  · intro st acc subnetName h
    unfold attachmentSubnetStep
    rw [h]
  · intro tgwIds rt st e htype h
    unfold routeEntryStep
    rw [htype, if_pos rfl, h]
  · intro tgwIds rt st e tid htype h1 h2
    unfold routeEntryStep
    rw [htype, if_pos rfl, h1, h2]
  · intro tgwIds rt st e htype h
    unfold routeEntryStep
    rw [htype]
    rw [if_neg (by decide), if_pos rfl, h]
  · intro σ α f st x xs msg h
    exact foldlM_error_head xs h

theorem unresolved_reference_aborts_witness :
    mapGet emptyBuildState.routeTableMap "Public" = none ∧
    subnetStep envSample "A" emptyBuildState
      { name := "Web", availabilityZone := "a",
        ipv4CidrBlock := "10.0.1.0/24", mapPublicIpOnLaunch := true,
        routeTable := "Public" } =
      Except.error ("Route table " ++ "Public" ++ " not defined") :=
  ⟨rfl,
   unresolved_reference_aborts.1 envSample "A" emptyBuildState
     { name := "Web", availabilityZone := "a",
       ipv4CidrBlock := "10.0.1.0/24", mapPublicIpOnLaunch := true,
       routeTable := "Public" } rfl⟩

/-- C10: a route entry whose `type` is none of `transitGateway`,
`natGateway`, `internetGateway` and whose `target` is neither `s3` nor
`dynamodb` falls off the end of the dispatch chain: the step succeeds
with the state unchanged — no route, no accumulation, no error. -/
theorem unknown_routeEntry_silently_skipped :
    ∀ (tgwIds : List (String × String)) (rt : RouteTableRes)
      (st : VpcBuildState) (e : RouteTableEntryItem),
      e.type ≠ "transitGateway" → e.type ≠ "natGateway" →
      e.type ≠ "internetGateway" → e.target ≠ "s3" → e.target ≠ "dynamodb" →
      routeEntryStep tgwIds rt st e = Except.ok st := by
  intro tgwIds rt st e h1 h2 h3 h4 h5
  unfold routeEntryStep
  rw [if_neg h1, if_neg h2, if_neg h3, if_neg h4, if_neg h5]

theorem unknown_routeEntry_silently_skipped_witness :
    (("instance" : String) ≠ "transitGateway" ∧ ("instance" : String) ≠ "natGateway" ∧
     ("instance" : String) ≠ "internetGateway" ∧ ("eni-1" : String) ≠ "s3" ∧
     ("eni-1" : String) ≠ "dynamodb") ∧
    routeEntryStep sampleTgwIds
      { name := "Public", routeTableId := "rtb-A-Public",
        vpcInternetGatewayId := none }
      emptyBuildState
      { name := "R9", type := "instance", destination := "10.1.0.0/16",
        target := "eni-1" } = Except.ok emptyBuildState :=
  ⟨⟨by decide, by decide, by decide, by decide, by decide⟩,
   unknown_routeEntry_silently_skipped sampleTgwIds
     { name := "Public", routeTableId := "rtb-A-Public",
       vpcInternetGatewayId := none }
     emptyBuildState
     { name := "R9", type := "instance", destination := "10.1.0.0/16",
       target := "eni-1" }
     (by decide) (by decide) (by decide) (by decide) (by decide)⟩

end LZA

namespace LZA

/-- C3: the per-VPC attachment map is keyed by the transit gateway's name
(not the attachment's name): after a successful attachment pass, looking
up a transit-gateway name yields the attachment created from the **last**
attachment item referencing that gateway, so with two attachments on one
gateway only the last one is addressable by later route entries. -/
theorem attachmentMap_keyed_by_gateway_lastWins :
    ∀ (tgwIds : List (String × String)) (vpcName vpcId : String)
      (items : List TransitGatewayAttachmentItem) (st st' : VpcBuildState),
      List.foldlM (attachmentStep tgwIds vpcName vpcId) st items =
        Except.ok st' →
      ∀ n, mapGet st'.transitGatewayAttachments n =
        match lastAttachmentItemFor items n with
        | some a =>
          some { transitGatewayAttachmentId := attachmentPhysicalId a.name }
        | none => mapGet st.transitGatewayAttachments n :=
  fun _ _ _ _ _ _ h n => attachmentsPhase_attMap h n

theorem attachmentMap_keyed_by_gateway_lastWins_witness :
    List.foldlM (attachmentStep sampleTgwIds "A" "vpc-A") emptyBuildState
      sampleAttachmentItems = Except.ok sampleAttachmentsResult ∧
    mapGet sampleAttachmentsResult.transitGatewayAttachments "T" =
      match lastAttachmentItemFor sampleAttachmentItems "T" with
      | some a =>
        some { transitGatewayAttachmentId := attachmentPhysicalId a.name }
      | none => mapGet emptyBuildState.transitGatewayAttachments "T" :=
  ⟨rfl,
   attachmentMap_keyed_by_gateway_lastWins sampleTgwIds "A" "vpc-A"
     sampleAttachmentItems emptyBuildState sampleAttachmentsResult rfl "T"⟩

/-- C4: a successful VPC build publishes exactly one identifier per
created route table, subnet, NAT gateway and transit-gateway attachment,
under `/accelerator/network/vpc/{vpcName}/{resourceKind}/{resourceName}/id`
with the VPC's own identifier at `/accelerator/network/vpc/{vpcName}/id`,
and nothing else. -/
theorem published_parameter_convention :
    ∀ (env : Env) (tgwIds : List (String × String)) (v : VpcItem)
      (st' : VpcBuildState),
      buildVpc env tgwIds v = Except.ok st' →
      st'.ssmParameters = publishedParametersSpec v :=
  fun _ _ _ _ h => (buildVpc_ok_fields h).1

theorem published_parameter_convention_witness :
    buildVpc envSample sampleTgwIds sampleVpcItem =
      Except.ok sampleVpcBuildResult ∧
    sampleVpcBuildResult.ssmParameters =
      publishedParametersSpec sampleVpcItem :=
  ⟨rfl,
   published_parameter_convention envSample sampleTgwIds sampleVpcItem
     sampleVpcBuildResult rfl⟩

/-- C5: the transit-gateway cache is populated at most once per name —
a cache hit makes the resolution step a no-op (the lookup is skipped
entirely), the final map has duplicate-free keys (each name maps to
exactly one identifier), and every referenced name of a matching VPC is
present after the pass. -/
theorem tgwCache_populated_once :
    (∀ (env : Env) (st : TgwResolutionState)
      (att : TransitGatewayAttachmentItem),
      (mapGet st.transitGatewayIds att.transitGateway.name).isSome = true →
      resolveAttachmentStep env st att = st) ∧
    (∀ (env : Env) (vpcs : List VpcItem),
      (mapKeys (resolveTransitGateways env vpcs).transitGatewayIds).Nodup) ∧
    (∀ (env : Env) (vpcs : List VpcItem) (v : VpcItem)
      (att : TransitGatewayAttachmentItem),
      v ∈ vpcs → vpcMatches env v = true →
      att ∈ v.transitGatewayAttachments →
      (mapGet (resolveTransitGateways env vpcs).transitGatewayIds
        att.transitGateway.name).isSome = true) :=
  ⟨fun _ _ _ h => resolveAttachmentStep_hit h,
   resolve_keys_nodup,
   fun _ _ _ _ hv hm hatt => resolve_presence hv hm hatt⟩

theorem tgwCache_populated_once_witness :
    (mapGet ({ transitGatewayIds := [("T", "tgw-111")],
               transitGatewayAccountIds := [] } :
              TgwResolutionState).transitGatewayIds
      ({ name := "Att1",
         transitGateway := { name := "T", account := "shared" },
         subnets := [] } :
        TransitGatewayAttachmentItem).transitGateway.name).isSome = true ∧
    resolveAttachmentStep envSample
      { transitGatewayIds := [("T", "tgw-111")],
        transitGatewayAccountIds := [] }
      { name := "Att1",
        transitGateway := { name := "T", account := "shared" },
        subnets := [] } =
      { transitGatewayIds := [("T", "tgw-111")],
        transitGatewayAccountIds := [] } :=
  ⟨rfl,
   tgwCache_populated_once.1 envSample
     { transitGatewayIds := [("T", "tgw-111")],
       transitGatewayAccountIds := [] }
     { name := "Att1",
       transitGateway := { name := "T", account := "shared" },
       subnets := [] } rfl⟩

end LZA

namespace LZA

theorem exceptBind_ok_left {α β : Type} (a : α) (f : α → Except String β) :
    (Except.ok a >>= f) = f a := rfl

/-- C7: the per-service gateway-endpoint route-table lists stay
duplicate-free through the route-entry pass, and a route table with at
least one entry targeting a service appears exactly once in that
service's accumulated list. -/
theorem endpoint_routeTables_deduplicated :
    ∀ (tgwIds : List (String × String)) (tables : List RouteTableItem)
      (st st' : VpcBuildState),
      List.foldlM (routeTableEntriesStep tgwIds) st tables = Except.ok st' →
      st.s3EndpointRouteTables.Nodup →
      st.dynamodbEndpointRouteTables.Nodup →
      st'.s3EndpointRouteTables.Nodup ∧
      st'.dynamodbEndpointRouteTables.Nodup ∧
      (∀ rt ∈ tables, ∀ e ∈ rt.routes,
        e.type ≠ "transitGateway" → e.type ≠ "natGateway" →
        e.type ≠ "internetGateway" →
        ∀ rtRes, mapGet st.routeTableMap rt.name = some rtRes →
          (e.target = "s3" →
            List.count rtRes.routeTableId st'.s3EndpointRouteTables = 1) ∧
          (e.target = "dynamodb" →
            List.count rtRes.routeTableId st'.dynamodbEndpointRouteTables
              = 1)) := by
  intro tgwIds tables st st' h hs3 hdd
  have hpres := entriesPhase_preserves h
  refine ⟨hpres.2.2.2.2.2.2.2.1 hs3, hpres.2.2.2.2.2.2.2.2.1 hdd, ?_⟩
  intro rt hrt e he h1 h2 h3 rtRes hmap
  obtain ⟨pre, post, htab⟩ := List.append_of_mem hrt
  rw [htab] at h
  obtain ⟨stA, hpre, hrest⟩ := foldlM_append_ok_iff.mp h
  obtain ⟨stB, hstep, hpost⟩ := foldlM_cons_ok_iff.mp hrest
  have hpresA := entriesPhase_preserves hpre
  have hmapA : mapGet stA.routeTableMap rt.name = some rtRes := by
    rw [hpresA.1]
    exact hmap
  unfold routeTableEntriesStep at hstep
  rw [hmapA] at hstep
  obtain ⟨p2, s2, hr2⟩ := List.append_of_mem he
  rw [hr2] at hstep
  obtain ⟨stC, hp2, hrest2⟩ := foldlM_append_ok_iff.mp hstep
  obtain ⟨stD, hestep, hs2⟩ := foldlM_cons_ok_iff.mp hrest2
  have hDB := foldlM_preserves_entries
    (fun _ _ _ hp => routeEntryStep_ok_preserves hp) _ _ _ hs2
  have hBfin := entriesPhase_preserves hpost
  constructor
  · intro ht
    have hshape := routeEntryStep_s3_shape tgwIds rtRes stC e h1 h2 h3 ht
    rw [hshape] at hestep
    have hD := Except.ok.inj hestep
    have hmemD : rtRes.routeTableId ∈ stD.s3EndpointRouteTables := by
      rw [← hD]
      exact pushIfAbsent_mem _ _
    have hmem' : rtRes.routeTableId ∈ st'.s3EndpointRouteTables :=
      hBfin.2.2.2.2.2.1 _ (hDB.2.2.2.2.2.1 _ hmemD)
    exact List.count_eq_one_of_mem (hpres.2.2.2.2.2.2.2.1 hs3) hmem'
  · intro ht
    by_cases hts : e.target = "s3"
    · exact absurd (hts.symm.trans ht) (by decide)
    · have hshape := routeEntryStep_dynamodb_shape tgwIds rtRes stC e
        h1 h2 h3 hts ht
      rw [hshape] at hestep
      have hD := Except.ok.inj hestep
      have hmemD : rtRes.routeTableId ∈ stD.dynamodbEndpointRouteTables := by
        rw [← hD]
        exact pushIfAbsent_mem _ _
      have hmem' : rtRes.routeTableId ∈ st'.dynamodbEndpointRouteTables :=
        hBfin.2.2.2.2.2.2.1 _ (hDB.2.2.2.2.2.2.1 _ hmemD)
      exact List.count_eq_one_of_mem (hpres.2.2.2.2.2.2.2.2.1 hdd) hmem'

theorem endpoint_routeTables_deduplicated_witness :
    List.foldlM (routeTableEntriesStep sampleTgwIds) sampleEntriesStart
      sampleEndpointTables = Except.ok sampleEntriesResult ∧
    sampleEntriesStart.s3EndpointRouteTables.Nodup ∧
    List.count "rtb-A-Public" sampleEntriesResult.s3EndpointRouteTables = 1 := by
  have h := endpoint_routeTables_deduplicated sampleTgwIds
    sampleEndpointTables sampleEntriesStart sampleEntriesResult rfl
    (by decide) (by decide)
  refine ⟨rfl, by decide, ?_⟩
  exact (h.2.2
    { name := "Public", routes :=
        [{ name := "s3a", type := "gatewayEndpoint", destination := "",
           target := "s3" },
         { name := "s3b", type := "gatewayEndpoint", destination := "",
           target := "s3" }] }
    (by decide)
    { name := "s3a", type := "gatewayEndpoint", destination := "",
      target := "s3" }
    (by decide) (by decide) (by decide) (by decide)
    { name := "Public", routeTableId := "rtb-A-Public",
      vpcInternetGatewayId := none }
    rfl).1 rfl

/-! ## Filter lemmas for the account/region scoping -/

theorem resolveFold_filter (env : Env) :
    ∀ (vpcs : List VpcItem) (st : TgwResolutionState),
      vpcs.foldl (resolveVpcStep env) st =
        (vpcs.filter (vpcMatches env)).foldl (resolveVpcStep env) st := by
  intro vpcs
  induction vpcs with
  | nil => intro st; rfl
  | cons w ws ih =>
    intro st
    by_cases hm : vpcMatches env w
    · rw [List.filter_cons_of_pos hm, List.foldl_cons, List.foldl_cons]
      exact ih _
    · rw [List.filter_cons_of_neg (by simpa using hm), List.foldl_cons]
      have hid : resolveVpcStep env st w = st := by
        unfold resolveVpcStep
        rw [if_neg hm]
      rw [hid]
      exact ih st

theorem resolve_filter (env : Env) (vpcs : List VpcItem) :
    resolveTransitGateways env vpcs =
      resolveTransitGateways env (vpcs.filter (vpcMatches env)) := by
  unfold resolveTransitGateways
  exact resolveFold_filter env vpcs _

theorem synthFold_filter (env : Env) (tgwIds : List (String × String)) :
    ∀ (l : List VpcItem) (out : Output),
      List.foldlM (vpcOutputStep env tgwIds) out l =
        List.foldlM (vpcOutputStep env tgwIds) out
          (l.filter (vpcMatches env)) := by
  intro l
  induction l with
  | nil => intro out; rfl
  | cons w ws ih =>
    intro out
    by_cases hm : vpcMatches env w
    · rw [List.filter_cons_of_pos hm, foldlM_cons, foldlM_cons]
      cases hstep : vpcOutputStep env tgwIds out w with
      | error e => rfl
      | ok mid =>
        rw [exceptBind_ok_left, exceptBind_ok_left]
        exact ih mid
    · rw [List.filter_cons_of_neg (by simpa using hm), foldlM_cons]
      have hid : vpcOutputStep env tgwIds out w = Except.ok out := by
        unfold vpcOutputStep
        rw [if_neg hm]
      rw [hid, exceptBind_ok_left]
      exact ih out

/-- C8: VPC definitions whose resolved account or region does not match
the execution context contribute nothing: synthesis of a configuration
equals synthesis of the configuration with all non-matching VPC
definitions removed, in both the resolution pass and the per-VPC build. -/
theorem nonMatching_vpcs_produce_nothing :
    ∀ (env : Env) (cfg : NetworkConfig),
      synthesize env cfg =
        synthesize env { cfg with vpcs := cfg.vpcs.filter (vpcMatches env) } := by
  intro env cfg
  unfold synthesize
  have hres := resolve_filter env cfg.vpcs
  have hvpcs : ({ cfg with vpcs := cfg.vpcs.filter (vpcMatches env) } :
      NetworkConfig).vpcs = cfg.vpcs.filter (vpcMatches env) := rfl
  have hbase : baseOutput env
      { cfg with vpcs := cfg.vpcs.filter (vpcMatches env) } =
      baseOutput env cfg := by
    unfold baseOutput
    rw [hvpcs, ← hres]
  rw [hvpcs, hbase, ← hres]
  exact synthFold_filter env _ cfg.vpcs (baseOutput env cfg)

end LZA

namespace LZA

/-- C6: the cross-account `DescribeTransitGatewayAttachments` role exists
iff the resolution pass encountered a foreign-owned transit gateway
(assuming each transit gateway has one owning account): the collected
account list is duplicate-free, contains only foreign owning accounts of
referenced gateways, is nonempty exactly when some matching VPC
references a foreign-owned gateway, and a successful synthesis contains
exactly one role (trusted by that list) when the list is nonempty and
none when it is empty. -/
theorem crossAccountRole_iff_foreign :
    ∀ (env : Env) (cfg : NetworkConfig) (ownerOf : String → String),
      ownerConsistent env ownerOf cfg.vpcs →
      (resolveTransitGateways env cfg.vpcs).transitGatewayAccountIds.Nodup ∧
      (∀ a ∈ (resolveTransitGateways env cfg.vpcs).transitGatewayAccountIds,
        a ≠ env.account ∧ ∃ v ∈ cfg.vpcs, vpcMatches env v = true ∧
          ∃ att ∈ v.transitGatewayAttachments,
            env.accountIdOf att.transitGateway.account = a) ∧
      ((resolveTransitGateways env cfg.vpcs).transitGatewayAccountIds ≠ [] ↔
        ∃ v ∈ cfg.vpcs, vpcMatches env v = true ∧
          ∃ att ∈ v.transitGatewayAttachments,
            env.accountIdOf att.transitGateway.account ≠ env.account) ∧
      (∀ out, synthesize env cfg = Except.ok out →
        countCrossAccountRoles out.resources =
          (if (resolveTransitGateways env cfg.vpcs).transitGatewayAccountIds
              = [] then 0 else 1) ∧
        ((resolveTransitGateways env cfg.vpcs).transitGatewayAccountIds ≠ []
          → Resource.crossAccountRole
              (resolveTransitGateways env cfg.vpcs).transitGatewayAccountIds
              ∈ out.resources)) := by
  intro env cfg ownerOf hcons
  refine ⟨resolve_accts_nodup env cfg.vpcs, ?_, ?_, ?_⟩
  · intro a ha
    obtain ⟨v, hv, hm, att, hatt, hx, hne⟩ := resolve_accts_sound ha
    exact ⟨hx ▸ hne, v, hv, hm, att, hatt, hx.symm⟩
  · constructor
    · intro hne
      obtain ⟨a, ha⟩ := List.exists_mem_of_ne_nil _ hne
      obtain ⟨v, hv, hm, att, hatt, _, hnea⟩ := resolve_accts_sound ha
      exact ⟨v, hv, hm, att, hatt, hnea⟩
    · rintro ⟨v, hv, hm, att, hatt, hne⟩
      exact List.ne_nil_of_mem (resolve_complete hcons hv hm hatt hne)
  · intro out hout
    unfold synthesize at hout
    obtain ⟨hcount, hmono⟩ := synthFold_roles cfg.vpcs _ _ hout
    constructor
    · rw [hcount, baseOutput_role_count]
    · intro hne
      exact hmono _ (baseOutput_role_mem env cfg hne)

theorem crossAccountRole_iff_foreign_witness :
    ownerConsistent envSample sampleOwnerOf sampleForeignConfig.vpcs ∧
    (resolveTransitGateways envSample
      sampleForeignConfig.vpcs).transitGatewayAccountIds.Nodup :=
  ⟨by unfold ownerConsistent; decide,
   (crossAccountRole_iff_foreign envSample sampleForeignConfig sampleOwnerOf
     (by unfold ownerConsistent; decide)).1⟩

/-- C9 counterexample: on the configuration whose VPC `Zebra` holds route
table `Tbl` with a route entry naming the undeclared NAT gateway `Ngw`,
synthesis aborts with `NAT Gateway Ngw not found` — a message that names
neither the containing VPC (`Zebra`) nor the containing route table
(`Tbl`), refuting the claim that every unresolved-reference error reports
its container. -/
theorem errorMessage_lacks_container :
    synthesize envSample sampleBrokenConfig =
      Except.error "NAT Gateway Ngw not found" ∧
    reportsName "NAT Gateway Ngw not found" "Zebra" = false ∧
    reportsName "NAT Gateway Ngw not found" "Tbl" = false := by
  refine ⟨rfl, by decide, by decide⟩

/-- C9 (amended): every configuration-error message raised for an
unresolved named reference reports the offending name itself (the
messages do not mention the containing VPC or route table). -/
theorem errorMessage_reports_offending_name :
    (∀ (env : Env) (vpcName : String) (st : VpcBuildState) (s : SubnetItem),
      mapGet st.routeTableMap s.routeTable = none →
      ∃ msg, subnetStep env vpcName st s = Except.error msg ∧
        reportsName msg s.routeTable = true) ∧
    (∀ (vpcName : String) (st : VpcBuildState) (n : NatGatewayItem),
      mapGet st.subnetMap n.subnet = none →
      ∃ msg, natGatewayStep vpcName st n = Except.error msg ∧
        reportsName msg n.subnet = true) ∧
    (∀ (tgwIds : List (String × String)) (vpcName vpcId : String)
      (st : VpcBuildState) (att : TransitGatewayAttachmentItem),
      mapGet tgwIds att.transitGateway.name = none →
      ∃ msg, attachmentStep tgwIds vpcName vpcId st att = Except.error msg ∧
        reportsName msg att.transitGateway.name = true) ∧
    (∀ (st : VpcBuildState) (acc : List String) (subnetName : String),
      mapGet st.subnetMap subnetName = none →
      ∃ msg, attachmentSubnetStep st acc subnetName = Except.error msg ∧
        reportsName msg subnetName = true) ∧
    (∀ (tgwIds : List (String × String)) (rt : RouteTableRes)
      (st : VpcBuildState) (e : RouteTableEntryItem),
      e.type = "transitGateway" → mapGet tgwIds e.target = none →
      ∃ msg, routeEntryStep tgwIds rt st e = Except.error msg ∧
        reportsName msg e.target = true) ∧
    (∀ (tgwIds : List (String × String)) (rt : RouteTableRes)
      (st : VpcBuildState) (e : RouteTableEntryItem) (tid : String),
      e.type = "transitGateway" → mapGet tgwIds e.target = some tid →
      mapGet st.transitGatewayAttachments e.target = none →
      ∃ msg, routeEntryStep tgwIds rt st e = Except.error msg ∧
        reportsName msg e.target = true) ∧
    (∀ (tgwIds : List (String × String)) (rt : RouteTableRes)
      (st : VpcBuildState) (e : RouteTableEntryItem),
      e.type = "natGateway" → mapGet st.natGatewayMap e.target = none →
      ∃ msg, routeEntryStep tgwIds rt st e = Except.error msg ∧
        reportsName msg e.target = true) ∧
    (∀ (st : VpcBuildState) (rt : RouteTableItem)
      (tgwIds : List (String × String)),
      mapGet st.routeTableMap rt.name = none →
      ∃ msg, routeTableEntriesStep tgwIds st rt = Except.error msg ∧
        reportsName msg rt.name = true) := by
  refine ⟨?_, ?_, ?_, ?_, ?_, ?_, ?_, ?_⟩
  · intro env vpcName st s h
    refine ⟨_, ?_, reportsName_affix "Route table " s.routeTable " not defined"⟩
    unfold subnetStep
    rw [h]
  · intro vpcName st n h
    refine ⟨_, ?_, reportsName_affix "Subnet " n.subnet " not defined"⟩
    unfold natGatewayStep
    rw [h]
  · intro tgwIds vpcName vpcId st att h
    refine ⟨_, ?_,
      reportsName_affix "Transit Gateway " att.transitGateway.name " not found"⟩
    unfold attachmentStep
    rw [h]
  · intro st acc subnetName h
    refine ⟨_, ?_, reportsName_affix "Subnet " subnetName " not defined"⟩
    unfold attachmentSubnetStep
    rw [h]
  · intro tgwIds rt st e htype h
    refine ⟨_, ?_, reportsName_affix "Transit Gateway " e.target " not found"⟩
    unfold routeEntryStep
    rw [htype, if_pos rfl, h]
  · intro tgwIds rt st e tid htype h1 h2
    refine ⟨_, ?_,
      reportsName_affix "Transit Gateway Attachment " e.target " not found"⟩
    unfold routeEntryStep
    rw [htype, if_pos rfl, h1, h2]
  · intro tgwIds rt st e htype h
    refine ⟨_, ?_, reportsName_affix "NAT Gateway " e.target " not found"⟩
    unfold routeEntryStep
    rw [htype]
    rw [if_neg (by decide), if_pos rfl, h]
  · intro st rt tgwIds h
    refine ⟨_, ?_, reportsName_affix "Route Table " rt.name " not found"⟩
    unfold routeTableEntriesStep
    rw [h]

theorem errorMessage_reports_offending_name_witness :
    mapGet emptyBuildState.routeTableMap "Public" = none ∧
    ∃ msg, subnetStep envSample "A" emptyBuildState
      { name := "Web", availabilityZone := "a",
        ipv4CidrBlock := "10.0.1.0/24", mapPublicIpOnLaunch := true,
        routeTable := "Public" } = Except.error msg ∧
      reportsName msg "Public" = true :=
  ⟨rfl,
   errorMessage_reports_offending_name.1 envSample "A" emptyBuildState
     { name := "Web", availabilityZone := "a",
       ipv4CidrBlock := "10.0.1.0/24", mapPublicIpOnLaunch := true,
       routeTable := "Public" } rfl⟩

end LZA
